import Mathlib

/-!
Shallow embedding of the event-synchronization pipeline of the
lfx-v2-survey-service repository (Go), covering:

* the string/number numeric coercion of the custom `UnmarshalJSON`
  implementations (`convertToInt`) of `SurveyDBRaw`, `SurveyCommitteeDBRaw`
  and `SurveyResponseDBRaw` (cmd/survey-api/eventing),
* the v1-to-v2 record transformers `convertMapToSurveyData` and
  `convertMapToSurveyResponseData`,
* the event handlers `handleSurveyUpdate`, `handleSurveyDelete`,
  `handleSurveyResponseUpdate`, `handleSurveyResponseDelete`, the KV
  routing functions `kvHandler`, `handleKVPut`, `handleKVDelete` and the
  ack/nak decision of `kvMessageHandler`,
* the error classifier `isTransientError`,
* the NATS publisher message construction
  (internal/infrastructure/eventing/nats_publisher.go).

Modelling conventions: Go `error` results become `Except String` /
`Option String`; the NATS connection, JetStream message plumbing and
structured logging are externalized (a publish failure is an injected
`Option String` parameter; log statements are dropped); the idempotency
KV bucket is a set of present keys (`List String`); the generic
`encoding/json` decode of a byte payload into the temporary struct of an
`UnmarshalJSON` implementation is taken as an `Except String` input,
while the numeric-field coercion those implementations perform on top of
it is modelled explicitly.  Go JSON numbers decode to `float64`; the
legacy numeric fields are integral, so JSON numbers are modelled as `Int`
(the `int(val)` truncation of non-integral doubles is outside every
property considered here).  Go `int` overflow is likewise out of scope:
integers are unbounded.
-/

deriving instance DecidableEq for Except

/-! ## Numeric coercion: `strconv.Atoi` and `convertToInt` -/

/-- Accumulating decimal parser over characters: fails on the first
non-digit character, as `strconv.Atoi` does for base-10 input. -/
def digitsToNat : List Char → Nat → Option Nat
  | [], acc => some acc
  | c :: cs, acc =>
      if c.isDigit then digitsToNat cs (acc * 10 + (c.toNat - 48))
      else none

/-- Model of Go `strconv.Atoi`: optional single leading sign, then one or
more decimal digits; anything else is a parse error (`none`).  The
`int64` range check of the real function is not modelled (the legacy
statistics fields are small). -/
def atoi (s : String) : Option Int :=
  let core : List Char → Option Nat := fun cs =>
    if cs.isEmpty then none else digitsToNat cs 0
  match s.toList with
  | '+' :: rest => (core rest).map (fun n => (n : Int))
  | '-' :: rest => (core rest).map (fun n => -(n : Int))
  | cs => (core cs).map (fun n => (n : Int))

/-- A value of Go type `interface{}` as produced by `encoding/json` for a
numeric legacy field: JSON null, a JSON string, a JSON number (integral,
see module comment), or a JSON bool (any other JSON shape hits the same
`default` branch of `convertToInt` as a bool does). -/
inductive GoVal where
  | nullV : GoVal
  | strV : String → GoVal
  | numV : Int → GoVal
  | boolV : Bool → GoVal
deriving DecidableEq, Repr, Inhabited

/-- The `convertToInt` closure shared (verbatim) by the `UnmarshalJSON`
implementations of `SurveyDBRaw`, `SurveyCommitteeDBRaw` and
`SurveyResponseDBRaw`: nil yields 0, an empty string yields 0, a
non-empty string goes through `strconv.Atoi`, a number is used directly,
and any other dynamic type is an error. -/
def convertToInt : GoVal → Except String Int
  | .nullV => .ok 0
  | .strV s =>
      if s = "" then .ok 0
      else
        match atoi s with
        | some n => .ok n
        | none => .error "strconv.Atoi: parsing: invalid syntax"
  | .numV n => .ok n
  | .boolV _ => .error "invalid type for numeric field: bool"

/-- Wraps a field conversion error with the per-field message used by the
`UnmarshalJSON` implementations (`failed to convert <field>: ...`). -/
def wrapFieldErr (fieldMsg : String) : Except String Int → Except String Int
  | .ok n => .ok n
  | .error e => .error (fieldMsg ++ ": " ++ e)

/-! ## Substring matching and the error classifier -/

/-- `hasPfxChars hay pat` is true when `pat` is a prefix of `hay`. -/
def hasPfxChars : List Char → List Char → Bool
  | _, [] => true
  | [], _ :: _ => false
  | a :: as, b :: bs => a = b && hasPfxChars as bs

/-- `containsChars hay pat` is true when `pat` occurs contiguously inside
`hay`; this is the semantics of Go `strings.Contains`. -/
def containsChars : List Char → List Char → Bool
  | [], pat => pat.isEmpty
  | a :: as, pat => hasPfxChars (a :: as) pat || containsChars as pat

/-- Model of Go `strings.Contains(s, sub)`. -/
def strContainsSub (s sub : String) : Bool :=
  containsChars s.toList sub.toList

/-- `isTransientError` from survey_event_handler.go: a nil error is not
transient; otherwise the error text is matched for the four substrings
used to detect NATS timeouts, connection issues, unavailability and
deadline expiry. -/
def isTransientError : Option String → Bool
  | none => false
  | some errStr =>
      strContainsSub errStr "timeout" || strContainsSub errStr "connection" ||
        strContainsSub errStr "unavailable" || strContainsSub errStr "deadline"

/-! ## Domain records (internal/domain, survey_service.go part)

Field names follow the Go structs; Go zero values are the `Inhabited`
defaults (empty string, 0, false, empty list). -/

/-- domain.SurveyCommitteeData: committee link carried by a transformed
survey, with both v1 SFIDs and (when resolution succeeded) v2 UIDs. -/
structure SurveyCommitteeData where
  CommitteeUID : String := ""
  CommitteeID : String := ""
  CommitteeName : String := ""
  ProjectUID : String := ""
  ProjectID : String := ""
  ProjectName : String := ""
  NPSValue : Int := 0
  NumPromoters : Int := 0
  NumPassives : Int := 0
  NumDetractors : Int := 0
  TotalRecipients : Int := 0
  TotalSentRecipients : Int := 0
  TotalResponses : Int := 0
  TotalRecipientsOpened : Int := 0
  TotalRecipientsClicked : Int := 0
  TotalDeliveryErrors : Int := 0
deriving DecidableEq, Repr, Inhabited

/-- domain.SurveyData: the transformed (v2) survey record. -/
structure SurveyData where
  UID : String := ""
  ID : String := ""
  SurveyMonkeyID : String := ""
  IsProjectSurvey : Bool := false
  StageFilter : String := ""
  CreatorUsername : String := ""
  CreatorName : String := ""
  CreatorID : String := ""
  CreatedAt : String := ""
  LastModifiedAt : String := ""
  LastModifiedBy : String := ""
  SurveyTitle : String := ""
  SurveySendDate : String := ""
  SurveyCutoffDate : String := ""
  SurveyReminderRateDays : Int := 0
  SendImmediately : Bool := false
  EmailSubject : String := ""
  EmailBody : String := ""
  EmailBodyText : String := ""
  CommitteeCategory : String := ""
  Committees : List SurveyCommitteeData := []
  CommitteeVotingEnabled : Bool := false
  SurveyStatus : String := ""
  NPSValue : Int := 0
  NumPromoters : Int := 0
  NumPassives : Int := 0
  NumDetractors : Int := 0
  TotalRecipients : Int := 0
  TotalSentRecipients : Int := 0
  TotalResponses : Int := 0
  TotalRecipientsOpened : Int := 0
  TotalRecipientsClicked : Int := 0
  TotalDeliveryErrors : Int := 0
  IsNPSSurvey : Bool := false
  CollectorURL : String := ""
deriving DecidableEq, Repr, Inhabited

/-- domain.SurveyMonkeyAnswer: opaque answer payload (pass-through). -/
structure SurveyMonkeyAnswer where
  ChoiceID : String := ""
  Text : String := ""
deriving DecidableEq, Repr, Inhabited

/-- domain.SurveyMonkeyQuestionAnswers: opaque respondent answers. -/
structure SurveyMonkeyQuestionAnswers where
  QuestionID : String := ""
  QuestionText : String := ""
  QuestionFamily : String := ""
  QuestionSubtype : String := ""
  Answers : List SurveyMonkeyAnswer := []
deriving DecidableEq, Repr, Inhabited

/-- domain.SurveyResponseProjectData: parent-project dual identifiers on
a transformed survey response. -/
structure SurveyResponseProjectData where
  ProjectUID : String := ""
  ID : String := ""
  Name : String := ""
deriving DecidableEq, Repr, Inhabited

/-- domain.SurveyResponseOrgData: respondent organization (pass-through). -/
structure SurveyResponseOrgData where
  ID : String := ""
  Name : String := ""
deriving DecidableEq, Repr, Inhabited

/-- domain.SurveyResponseData: the transformed (v2) survey response. -/
structure SurveyResponseData where
  UID : String := ""
  ID : String := ""
  SurveyID : String := ""
  SurveyUID : String := ""
  SurveyMonkeyRespondent : String := ""
  Email : String := ""
  CommitteeMemberID : String := ""
  FirstName : String := ""
  LastName : String := ""
  CreatedAt : String := ""
  ResponseDatetime : String := ""
  LastReceivedTime : String := ""
  NumAutomatedRemindersReceived : Int := 0
  Username : String := ""
  VotingStatus : String := ""
  Role : String := ""
  JobTitle : String := ""
  MembershipTier : String := ""
  Organization : SurveyResponseOrgData := {}
  Project : SurveyResponseProjectData := {}
  CommitteeUID : String := ""
  CommitteeID : String := ""
  CommitteeVotingEnabled : Bool := false
  SurveyLink : String := ""
  NPSValue : Int := 0
  SurveyMonkeyQuestionAnswers : List SurveyMonkeyQuestionAnswers := []
  SESMessageID : String := ""
  SESBounceType : String := ""
  SESBounceSubtype : String := ""
  SESBounceDiagnosticCode : String := ""
  SESComplaintExists : Bool := false
  SESComplaintType : String := ""
  SESComplaintDate : String := ""
  SESDeliverySuccessful : Bool := false
  EmailOpenedFirstTime : String := ""
  EmailOpenedLastTime : String := ""
  LinkClickedFirstTime : String := ""
  LinkClickedLastTime : String := ""
  Excluded : Bool := false
deriving DecidableEq, Repr, Inhabited

/-! ## Raw v1 records and their `UnmarshalJSON` numeric coercion

`<X>DBRawJson` is the temporary struct of the corresponding
`UnmarshalJSON` implementation after the generic `json.Unmarshal` into it
(numeric fields still `interface{}` = `GoVal`); `unmarshal<X>DBRaw`
performs the `convertToInt` assignments of that implementation. -/

/-- Temporary decode form of SurveyCommitteeDBRaw. -/
structure SurveyCommitteeDBRawJson where
  CommitteeID : String := ""
  CommitteeName : String := ""
  ProjectID : String := ""
  ProjectName : String := ""
  NPSValue : GoVal := .nullV
  NumPromoters : GoVal := .nullV
  NumPassives : GoVal := .nullV
  NumDetractors : GoVal := .nullV
  TotalRecipients : GoVal := .nullV
  TotalSentRecipients : GoVal := .nullV
  TotalResponses : GoVal := .nullV
  TotalRecipientsOpened : GoVal := .nullV
  TotalRecipientsClicked : GoVal := .nullV
  TotalDeliveryErrors : GoVal := .nullV
deriving DecidableEq, Repr, Inhabited

/-- SurveyCommitteeDBRaw after its `UnmarshalJSON` completed. -/
structure SurveyCommitteeDBRaw where
  CommitteeID : String := ""
  CommitteeName : String := ""
  ProjectID : String := ""
  ProjectName : String := ""
  NPSValue : Int := 0
  NumPromoters : Int := 0
  NumPassives : Int := 0
  NumDetractors : Int := 0
  TotalRecipients : Int := 0
  TotalSentRecipients : Int := 0
  TotalResponses : Int := 0
  TotalRecipientsOpened : Int := 0
  TotalRecipientsClicked : Int := 0
  TotalDeliveryErrors : Int := 0
deriving DecidableEq, Repr, Inhabited

/-- The numeric-conversion tail of `SurveyCommitteeDBRaw.UnmarshalJSON`:
string fields are copied, each numeric field goes through `convertToInt`,
and the first failing field aborts with its wrapped error. -/
def unmarshalSurveyCommitteeDBRaw (t : SurveyCommitteeDBRawJson) :
    Except String SurveyCommitteeDBRaw := do
  let npsValue ← wrapFieldErr "failed to convert nps_value" (convertToInt t.NPSValue)
  let numPromoters ← wrapFieldErr "failed to convert num_promoters" (convertToInt t.NumPromoters)
  let numPassives ← wrapFieldErr "failed to convert num_passives" (convertToInt t.NumPassives)
  let numDetractors ← wrapFieldErr "failed to convert num_detractors" (convertToInt t.NumDetractors)
  let totalRecipients ← wrapFieldErr "failed to convert total_recipients" (convertToInt t.TotalRecipients)
  let totalSent ← wrapFieldErr "failed to convert total_recipients_sent" (convertToInt t.TotalSentRecipients)
  let totalResponses ← wrapFieldErr "failed to convert total_responses" (convertToInt t.TotalResponses)
  let totalOpened ← wrapFieldErr "failed to convert total_recipients_opened" (convertToInt t.TotalRecipientsOpened)
  let totalClicked ← wrapFieldErr "failed to convert total_recipients_clicked" (convertToInt t.TotalRecipientsClicked)
  let totalErrors ← wrapFieldErr "failed to convert total_delivery_errors" (convertToInt t.TotalDeliveryErrors)
  return {
    CommitteeID := t.CommitteeID
    CommitteeName := t.CommitteeName
    ProjectID := t.ProjectID
    ProjectName := t.ProjectName
    NPSValue := npsValue
    NumPromoters := numPromoters
    NumPassives := numPassives
    NumDetractors := numDetractors
    TotalRecipients := totalRecipients
    TotalSentRecipients := totalSent
    TotalResponses := totalResponses
    TotalRecipientsOpened := totalOpened
    TotalRecipientsClicked := totalClicked
    TotalDeliveryErrors := totalErrors }

/-- Temporary decode form of SurveyDBRaw (committee elements still in
their own temporary form: their nested `UnmarshalJSON` runs as part of
decoding the outer temporary struct). -/
structure SurveyDBRawJson where
  ID : String := ""
  SurveyMonkeyID : String := ""
  IsProjectSurvey : Bool := false
  StageFilter : String := ""
  CreatorUsername : String := ""
  CreatorName : String := ""
  CreatorID : String := ""
  CreatedAt : String := ""
  LastModifiedAt : String := ""
  LastModifiedBy : String := ""
  SurveyTitle : String := ""
  SurveySendDate : String := ""
  SurveyCutoffDate : String := ""
  SurveyReminderRateDays : GoVal := .nullV
  SendImmediately : Bool := false
  EmailSubject : String := ""
  EmailBody : String := ""
  EmailBodyText : String := ""
  CommitteeCategory : String := ""
  Committees : List SurveyCommitteeDBRawJson := []
  CommitteeVotingEnabled : Bool := false
  SurveyStatus : String := ""
  NPSValue : GoVal := .nullV
  NumPromoters : GoVal := .nullV
  NumPassives : GoVal := .nullV
  NumDetractors : GoVal := .nullV
  TotalRecipients : GoVal := .nullV
  TotalSentRecipients : GoVal := .nullV
  TotalResponses : GoVal := .nullV
  TotalRecipientsOpened : GoVal := .nullV
  TotalRecipientsClicked : GoVal := .nullV
  TotalDeliveryErrors : GoVal := .nullV
  IsNPSSurvey : Bool := false
  CollectorURL : String := ""
deriving DecidableEq, Repr, Inhabited

/-- SurveyDBRaw after its `UnmarshalJSON` completed. -/
structure SurveyDBRaw where
  ID : String := ""
  SurveyMonkeyID : String := ""
  IsProjectSurvey : Bool := false
  StageFilter : String := ""
  CreatorUsername : String := ""
  CreatorName : String := ""
  CreatorID : String := ""
  CreatedAt : String := ""
  LastModifiedAt : String := ""
  LastModifiedBy : String := ""
  SurveyTitle : String := ""
  SurveySendDate : String := ""
  SurveyCutoffDate : String := ""
  SurveyReminderRateDays : Int := 0
  SendImmediately : Bool := false
  EmailSubject : String := ""
  EmailBody : String := ""
  EmailBodyText : String := ""
  CommitteeCategory : String := ""
  Committees : List SurveyCommitteeDBRaw := []
  CommitteeVotingEnabled : Bool := false
  SurveyStatus : String := ""
  NPSValue : Int := 0
  NumPromoters : Int := 0
  NumPassives : Int := 0
  NumDetractors : Int := 0
  TotalRecipients : Int := 0
  TotalSentRecipients : Int := 0
  TotalResponses : Int := 0
  TotalRecipientsOpened : Int := 0
  TotalRecipientsClicked : Int := 0
  TotalDeliveryErrors : Int := 0
  IsNPSSurvey : Bool := false
  CollectorURL : String := ""
deriving DecidableEq, Repr, Inhabited

/-- `SurveyDBRaw.UnmarshalJSON` numeric stage: the nested committee
entries are converted first (in Go their `UnmarshalJSON` already ran
while decoding the temporary struct, so a failing committee aborts the
whole record), then each top-level numeric field goes through
`convertToInt` in source order. -/
def unmarshalSurveyDBRaw (t : SurveyDBRawJson) : Except String SurveyDBRaw := do
  let committees ← t.Committees.mapM unmarshalSurveyCommitteeDBRaw
  let reminderRate ← wrapFieldErr "failed to convert survey_reminder_rate_days" (convertToInt t.SurveyReminderRateDays)
  let npsValue ← wrapFieldErr "failed to convert nps_value" (convertToInt t.NPSValue)
  let numPromoters ← wrapFieldErr "failed to convert num_promoters" (convertToInt t.NumPromoters)
  let numPassives ← wrapFieldErr "failed to convert num_passives" (convertToInt t.NumPassives)
  let numDetractors ← wrapFieldErr "failed to convert num_detractors" (convertToInt t.NumDetractors)
  let totalRecipients ← wrapFieldErr "failed to convert total_recipients" (convertToInt t.TotalRecipients)
  let totalSent ← wrapFieldErr "failed to convert total_recipients_sent" (convertToInt t.TotalSentRecipients)
  let totalResponses ← wrapFieldErr "failed to convert total_responses" (convertToInt t.TotalResponses)
  let totalOpened ← wrapFieldErr "failed to convert total_recipients_opened" (convertToInt t.TotalRecipientsOpened)
  let totalClicked ← wrapFieldErr "failed to convert total_recipients_clicked" (convertToInt t.TotalRecipientsClicked)
  let totalErrors ← wrapFieldErr "failed to convert total_delivery_errors" (convertToInt t.TotalDeliveryErrors)
  return {
    ID := t.ID
    SurveyMonkeyID := t.SurveyMonkeyID
    IsProjectSurvey := t.IsProjectSurvey
    StageFilter := t.StageFilter
    CreatorUsername := t.CreatorUsername
    CreatorName := t.CreatorName
    CreatorID := t.CreatorID
    CreatedAt := t.CreatedAt
    LastModifiedAt := t.LastModifiedAt
    LastModifiedBy := t.LastModifiedBy
    SurveyTitle := t.SurveyTitle
    SurveySendDate := t.SurveySendDate
    SurveyCutoffDate := t.SurveyCutoffDate
    SurveyReminderRateDays := reminderRate
    SendImmediately := t.SendImmediately
    EmailSubject := t.EmailSubject
    EmailBody := t.EmailBody
    EmailBodyText := t.EmailBodyText
    CommitteeCategory := t.CommitteeCategory
    Committees := committees
    CommitteeVotingEnabled := t.CommitteeVotingEnabled
    SurveyStatus := t.SurveyStatus
    NPSValue := npsValue
    NumPromoters := numPromoters
    NumPassives := numPassives
    NumDetractors := numDetractors
    TotalRecipients := totalRecipients
    TotalSentRecipients := totalSent
    TotalResponses := totalResponses
    TotalRecipientsOpened := totalOpened
    TotalRecipientsClicked := totalClicked
    TotalDeliveryErrors := totalErrors
    IsNPSSurvey := t.IsNPSSurvey
    CollectorURL := t.CollectorURL }

/-- SurveyResponseProjectDBRaw: nested v1 project reference. -/
structure SurveyResponseProjectDBRaw where
  ID : String := ""
  Name : String := ""
deriving DecidableEq, Repr, Inhabited

/-- Temporary decode form of SurveyResponseDBRaw. -/
structure SurveyResponseDBRawJson where
  ID : String := ""
  SurveyID : String := ""
  SurveyMonkeyRespondent : String := ""
  Email : String := ""
  CommitteeMemberID : String := ""
  FirstName : String := ""
  LastName : String := ""
  CreatedAt : String := ""
  ResponseDatetime : String := ""
  LastReceivedTime : String := ""
  NumAutomatedRemindersReceived : GoVal := .nullV
  Username : String := ""
  VotingStatus : String := ""
  Role : String := ""
  JobTitle : String := ""
  MembershipTier : String := ""
  Organization : SurveyResponseOrgData := {}
  Project : SurveyResponseProjectDBRaw := {}
  CommitteeID : String := ""
  CommitteeVotingEnabled : Bool := false
  SurveyLink : String := ""
  NPSValue : GoVal := .nullV
  SurveyMonkeyQuestionAnswers : List SurveyMonkeyQuestionAnswers := []
  SESMessageID : String := ""
  SESBounceType : String := ""
  SESBounceSubtype : String := ""
  SESBounceDiagnosticCode : String := ""
  SESComplaintExists : Bool := false
  SESComplaintType : String := ""
  SESComplaintDate : String := ""
  SESDeliverySuccessful : Bool := false
  EmailOpenedFirstTime : String := ""
  EmailOpenedLastTime : String := ""
  LinkClickedFirstTime : String := ""
  LinkClickedLastTime : String := ""
  Excluded : Bool := false
deriving DecidableEq, Repr, Inhabited

/-- SurveyResponseDBRaw after its `UnmarshalJSON` completed. -/
structure SurveyResponseDBRaw where
  ID : String := ""
  SurveyID : String := ""
  SurveyMonkeyRespondent : String := ""
  Email : String := ""
  CommitteeMemberID : String := ""
  FirstName : String := ""
  LastName : String := ""
  CreatedAt : String := ""
  ResponseDatetime : String := ""
  LastReceivedTime : String := ""
  NumAutomatedRemindersReceived : Int := 0
  Username : String := ""
  VotingStatus : String := ""
  Role : String := ""
  JobTitle : String := ""
  MembershipTier : String := ""
  Organization : SurveyResponseOrgData := {}
  Project : SurveyResponseProjectDBRaw := {}
  CommitteeID : String := ""
  CommitteeVotingEnabled : Bool := false
  SurveyLink : String := ""
  NPSValue : Int := 0
  SurveyMonkeyQuestionAnswers : List SurveyMonkeyQuestionAnswers := []
  SESMessageID : String := ""
  SESBounceType : String := ""
  SESBounceSubtype : String := ""
  SESBounceDiagnosticCode : String := ""
  SESComplaintExists : Bool := false
  SESComplaintType : String := ""
  SESComplaintDate : String := ""
  SESDeliverySuccessful : Bool := false
  EmailOpenedFirstTime : String := ""
  EmailOpenedLastTime : String := ""
  LinkClickedFirstTime : String := ""
  LinkClickedLastTime : String := ""
  Excluded : Bool := false
deriving DecidableEq, Repr, Inhabited

/-- `SurveyResponseDBRaw.UnmarshalJSON` numeric stage: every
pass-through field is copied, then the two numeric fields go through
`convertToInt` in source order. -/
def unmarshalSurveyResponseDBRaw (t : SurveyResponseDBRawJson) :
    Except String SurveyResponseDBRaw := do
  let reminders ← wrapFieldErr "failed to convert num_automated_reminders_received" (convertToInt t.NumAutomatedRemindersReceived)
  let npsValue ← wrapFieldErr "failed to convert nps_value" (convertToInt t.NPSValue)
  return {
    ID := t.ID
    SurveyID := t.SurveyID
    SurveyMonkeyRespondent := t.SurveyMonkeyRespondent
    Email := t.Email
    CommitteeMemberID := t.CommitteeMemberID
    FirstName := t.FirstName
    LastName := t.LastName
    CreatedAt := t.CreatedAt
    ResponseDatetime := t.ResponseDatetime
    LastReceivedTime := t.LastReceivedTime
    NumAutomatedRemindersReceived := reminders
    Username := t.Username
    VotingStatus := t.VotingStatus
    Role := t.Role
    JobTitle := t.JobTitle
    MembershipTier := t.MembershipTier
    Organization := t.Organization
    Project := t.Project
    CommitteeID := t.CommitteeID
    CommitteeVotingEnabled := t.CommitteeVotingEnabled
    SurveyLink := t.SurveyLink
    NPSValue := npsValue
    SurveyMonkeyQuestionAnswers := t.SurveyMonkeyQuestionAnswers
    SESMessageID := t.SESMessageID
    SESBounceType := t.SESBounceType
    SESBounceSubtype := t.SESBounceSubtype
    SESBounceDiagnosticCode := t.SESBounceDiagnosticCode
    SESComplaintExists := t.SESComplaintExists
    SESComplaintType := t.SESComplaintType
    SESComplaintDate := t.SESComplaintDate
    SESDeliverySuccessful := t.SESDeliverySuccessful
    EmailOpenedFirstTime := t.EmailOpenedFirstTime
    EmailOpenedLastTime := t.EmailOpenedLastTime
    LinkClickedFirstTime := t.LinkClickedFirstTime
    LinkClickedLastTime := t.LinkClickedLastTime
    Excluded := t.Excluded }

/-! ## Identifier Mapper and the v1-to-v2 transformers -/

/-- domain.IDMapper restricted to the two directions the pipeline calls;
`none` models the Go call returning an error (not-found or unavailable —
the handlers only log the distinction). -/
structure IDMapperM where
  mapCommitteeV1ToV2 : String → Option String
  mapProjectV1ToV2 : String → Option String

/-- The committee-processing loop body of `convertMapToSurveyData`: copy
the raw committee entry, then resolve committee and project v1 IDs to v2
UIDs, leaving the UID empty when the input ID is empty or the mapper
fails (resolution failure is only a logged warning). -/
def mapCommitteeDB (idm : IDMapperM) (committeeDB : SurveyCommitteeDBRaw) :
    SurveyCommitteeData :=
  let committeeData : SurveyCommitteeData := {
    CommitteeID := committeeDB.CommitteeID
    CommitteeName := committeeDB.CommitteeName
    ProjectID := committeeDB.ProjectID
    ProjectName := committeeDB.ProjectName
    NPSValue := committeeDB.NPSValue
    NumPromoters := committeeDB.NumPromoters
    NumPassives := committeeDB.NumPassives
    NumDetractors := committeeDB.NumDetractors
    TotalRecipients := committeeDB.TotalRecipients
    TotalSentRecipients := committeeDB.TotalSentRecipients
    TotalResponses := committeeDB.TotalResponses
    TotalRecipientsOpened := committeeDB.TotalRecipientsOpened
    TotalRecipientsClicked := committeeDB.TotalRecipientsClicked
    TotalDeliveryErrors := committeeDB.TotalDeliveryErrors }
  let committeeData :=
    if committeeDB.CommitteeID ≠ "" then
      match idm.mapCommitteeV1ToV2 committeeDB.CommitteeID with
      | some committeeUID => { committeeData with CommitteeUID := committeeUID }
      | none => committeeData
    else committeeData
  if committeeDB.ProjectID ≠ "" then
    match idm.mapProjectV1ToV2 committeeDB.ProjectID with
    | some projectUID => { committeeData with ProjectUID := projectUID }
    | none => committeeData
  else committeeData

/-- Builds the v2 SurveyData from a fully unmarshalled SurveyDBRaw
(the field-copy block plus the committee loop of
`convertMapToSurveyData`). -/
def buildSurveyData (idm : IDMapperM) (surveyDB : SurveyDBRaw) : SurveyData :=
  { UID := surveyDB.ID
    ID := surveyDB.ID
    SurveyMonkeyID := surveyDB.SurveyMonkeyID
    IsProjectSurvey := surveyDB.IsProjectSurvey
    StageFilter := surveyDB.StageFilter
    CreatorUsername := surveyDB.CreatorUsername
    CreatorName := surveyDB.CreatorName
    CreatorID := surveyDB.CreatorID
    CreatedAt := surveyDB.CreatedAt
    LastModifiedAt := surveyDB.LastModifiedAt
    LastModifiedBy := surveyDB.LastModifiedBy
    SurveyTitle := surveyDB.SurveyTitle
    SurveySendDate := surveyDB.SurveySendDate
    SurveyCutoffDate := surveyDB.SurveyCutoffDate
    SurveyReminderRateDays := surveyDB.SurveyReminderRateDays
    SendImmediately := surveyDB.SendImmediately
    EmailSubject := surveyDB.EmailSubject
    EmailBody := surveyDB.EmailBody
    EmailBodyText := surveyDB.EmailBodyText
    CommitteeCategory := surveyDB.CommitteeCategory
    Committees := surveyDB.Committees.map (mapCommitteeDB idm)
    CommitteeVotingEnabled := surveyDB.CommitteeVotingEnabled
    SurveyStatus := surveyDB.SurveyStatus
    NPSValue := surveyDB.NPSValue
    NumPromoters := surveyDB.NumPromoters
    NumPassives := surveyDB.NumPassives
    NumDetractors := surveyDB.NumDetractors
    TotalRecipients := surveyDB.TotalRecipients
    TotalSentRecipients := surveyDB.TotalSentRecipients
    TotalResponses := surveyDB.TotalResponses
    TotalRecipientsOpened := surveyDB.TotalRecipientsOpened
    TotalRecipientsClicked := surveyDB.TotalRecipientsClicked
    TotalDeliveryErrors := surveyDB.TotalDeliveryErrors
    IsNPSSurvey := surveyDB.IsNPSSurvey
    CollectorURL := surveyDB.CollectorURL }

/-- `convertMapToSurveyData`: the input is the result of the generic JSON
decode of the v1 map into the temporary struct (`.error` = that decode
failed); its numeric stage and the committee/project resolution follow. -/
def convertMapToSurveyData (idm : IDMapperM)
    (rawE : Except String SurveyDBRawJson) : Except String SurveyData :=
  match rawE with
  | .error e => .error ("failed to unmarshal JSON into SurveyDBRaw: " ++ e)
  | .ok tmp =>
    match unmarshalSurveyDBRaw tmp with
    | .error e => .error ("failed to unmarshal JSON into SurveyDBRaw: " ++ e)
    | .ok surveyDB => .ok (buildSurveyData idm surveyDB)

/-- Builds the v2 SurveyResponseData from a fully unmarshalled
SurveyResponseDBRaw: the field-copy block, then project resolution
(leaving `ProjectUID` empty on mapper failure) and committee resolution
(leaving `CommitteeUID` empty on mapper failure). -/
def buildSurveyResponseData (idm : IDMapperM) (responseDB : SurveyResponseDBRaw) :
    SurveyResponseData :=
  let responseData : SurveyResponseData := {
    UID := responseDB.ID
    ID := responseDB.ID
    SurveyID := responseDB.SurveyID
    SurveyUID := responseDB.SurveyID
    SurveyMonkeyRespondent := responseDB.SurveyMonkeyRespondent
    Email := responseDB.Email
    CommitteeMemberID := responseDB.CommitteeMemberID
    FirstName := responseDB.FirstName
    LastName := responseDB.LastName
    CreatedAt := responseDB.CreatedAt
    ResponseDatetime := responseDB.ResponseDatetime
    LastReceivedTime := responseDB.LastReceivedTime
    NumAutomatedRemindersReceived := responseDB.NumAutomatedRemindersReceived
    Username := responseDB.Username
    VotingStatus := responseDB.VotingStatus
    Role := responseDB.Role
    JobTitle := responseDB.JobTitle
    MembershipTier := responseDB.MembershipTier
    Organization := responseDB.Organization
    Project := { ID := responseDB.Project.ID, Name := responseDB.Project.Name }
    CommitteeID := responseDB.CommitteeID
    CommitteeVotingEnabled := responseDB.CommitteeVotingEnabled
    SurveyLink := responseDB.SurveyLink
    NPSValue := responseDB.NPSValue
    SurveyMonkeyQuestionAnswers := responseDB.SurveyMonkeyQuestionAnswers
    SESMessageID := responseDB.SESMessageID
    SESBounceType := responseDB.SESBounceType
    SESBounceSubtype := responseDB.SESBounceSubtype
    SESBounceDiagnosticCode := responseDB.SESBounceDiagnosticCode
    SESComplaintExists := responseDB.SESComplaintExists
    SESComplaintType := responseDB.SESComplaintType
    SESComplaintDate := responseDB.SESComplaintDate
    SESDeliverySuccessful := responseDB.SESDeliverySuccessful
    EmailOpenedFirstTime := responseDB.EmailOpenedFirstTime
    EmailOpenedLastTime := responseDB.EmailOpenedLastTime
    LinkClickedFirstTime := responseDB.LinkClickedFirstTime
    LinkClickedLastTime := responseDB.LinkClickedLastTime
    Excluded := responseDB.Excluded }
  let responseData :=
    if responseDB.Project.ID ≠ "" then
      match idm.mapProjectV1ToV2 responseDB.Project.ID with
      | some projectUID =>
          { responseData with Project := { responseData.Project with ProjectUID := projectUID } }
      | none => responseData
    else responseData
  if responseDB.CommitteeID ≠ "" then
    match idm.mapCommitteeV1ToV2 responseDB.CommitteeID with
    | some committeeUID => { responseData with CommitteeUID := committeeUID }
    | none => responseData
  else responseData

/-- `convertMapToSurveyResponseData`, with the same decomposition as
`convertMapToSurveyData`. -/
def convertMapToSurveyResponseData (idm : IDMapperM)
    (rawE : Except String SurveyResponseDBRawJson) : Except String SurveyResponseData :=
  match rawE with
  | .error e => .error ("failed to unmarshal JSON into SurveyResponseDBRaw: " ++ e)
  | .ok tmp =>
    match unmarshalSurveyResponseDBRaw tmp with
    | .error e => .error ("failed to unmarshal JSON into SurveyResponseDBRaw: " ++ e)
    | .ok responseDB => .ok (buildSurveyResponseData idm responseDB)

/-! ## Downstream publisher (nats_publisher.go)

Publishing is modelled on its success path as pure message construction:
each `send*` function yields the messages handed to `conn.Publish`.
Broker failures are injected at the handler layer instead. -/

/-- Subject for survey indexing. -/
def IndexSurveySubject : String := "lfx.index.survey"

/-- Subject for survey response indexing. -/
def IndexSurveyResponseSubject : String := "lfx.index.survey_response"

/-- Subject for FGA access control updates. -/
def UpdateAccessSubject : String := "lfx.fga-sync.update_access"

/-- Subject for FGA access control deletions. -/
def DeleteAccessSubject : String := "lfx.fga-sync.delete_access"

/-- indexerConstants.MessageAction values used by the pipeline. -/
inductive MessageAction where
  | created : MessageAction
  | updated : MessageAction
  | deleted : MessageAction
deriving DecidableEq, Repr, Inhabited

/-- The context values `buildHeaders` reads (authorization token and
on-behalf-of principal). -/
structure Ctx where
  authorization : Option String := none
  principal : Option String := none
deriving DecidableEq, Repr, Inhabited

/-- `buildHeaders`: authorization from the context when present, else the
service-identity fallback; the principal only when present. -/
def buildHeaders (ctx : Ctx) : List (String × String) :=
  let headers := [("authorization",
    match ctx.authorization with
    | some authorization => authorization
    | none => "Bearer survey-service")]
  match ctx.principal with
  | some principal => headers ++ [("x-on-behalf-of", principal)]
  | none => headers

/-- indexerTypes.IndexingConfig as populated by this service. -/
structure IndexingConfig where
  ObjectID : String := ""
  AccessCheckObject : String := ""
  AccessCheckRelation : String := ""
  HistoryCheckObject : String := ""
  HistoryCheckRelation : String := ""
  SortName : String := ""
  NameAndAliases : List String := []
  ParentRefs : List String := []
  Fulltext : String := ""
  Public : Option Bool := none
deriving DecidableEq, Repr, Inhabited

/-- The `Data` field of an IndexerMessageEnvelope: a bare identifier for
deletes, or the full transformed record for create/update. -/
inductive IndexerData where
  | uidData : String → IndexerData
  | surveyFull : SurveyData → IndexerData
  | responseFull : SurveyResponseData → IndexerData
deriving DecidableEq, Repr

/-- indexerTypes.IndexerMessageEnvelope. -/
structure IndexerMessageEnvelope where
  Action : MessageAction
  Headers : List (String × String)
  Data : IndexerData
  IndexingConfig : IndexingConfig
deriving DecidableEq, Repr

/-- The `data` block of a GenericFGAMessage (`map[string]interface{}` in
Go; `none` models an absent key). -/
structure FGAData where
  uid : String
  public : Option Bool := none
  relations : Option (List (String × List String)) := none
  references : Option (List (String × List String)) := none
deriving DecidableEq, Repr

/-- GenericFGAMessage. -/
structure GenericFGAMessage where
  ObjectType : String
  Operation : String
  Data : FGAData
deriving DecidableEq, Repr

/-- A message payload handed to `conn.Publish`. -/
inductive NatsPayload where
  | indexer : IndexerMessageEnvelope → NatsPayload
  | fga : GenericFGAMessage → NatsPayload
deriving DecidableEq, Repr

/-- A published NATS message: subject plus payload. -/
structure NatsMsg where
  subject : String
  payload : NatsPayload
deriving DecidableEq, Repr

/-- One iteration of the parent-reference loop of
`sendSurveyIndexerMessage`: a `committee:<uid>` entry is appended for a
resolved committee UID (no de-duplication); a `project:<uid>` entry is
appended only when not already present in the accumulated list. -/
def surveyParentRefsStep (parentRefs : List String)
    (committee : SurveyCommitteeData) : List String :=
  let parentRefs :=
    if committee.CommitteeUID != "" then
      parentRefs ++ ["committee:" ++ committee.CommitteeUID]
    else parentRefs
  if committee.ProjectUID != "" then
    let projectRef := "project:" ++ committee.ProjectUID
    if parentRefs.contains projectRef then parentRefs
    else parentRefs ++ [projectRef]
  else parentRefs

/-- The parent-reference loop of `sendSurveyIndexerMessage`. -/
def buildSurveyParentRefs (committees : List SurveyCommitteeData) : List String :=
  committees.foldl surveyParentRefsStep []

/-- `sendIndexerDeleteMessage`: minimal envelope whose data is the bare
identifier, with the indexing config still included. -/
def sendIndexerDeleteMessage (ctx : Ctx) (subject : String)
    (action : MessageAction) (uid : String) (indexingConfig : IndexingConfig) :
    NatsMsg :=
  { subject := subject
    payload := .indexer {
      Action := action
      Headers := buildHeaders ctx
      Data := .uidData uid
      IndexingConfig := indexingConfig } }

/-- `sendIndexerCreateUpdateMessage`: full record as data, with
`public=false` forced into the indexing config. -/
def sendIndexerCreateUpdateMessage (ctx : Ctx) (subject : String)
    (action : MessageAction) (data : IndexerData) (indexingConfig : IndexingConfig) :
    NatsMsg :=
  { subject := subject
    payload := .indexer {
      Action := action
      Headers := buildHeaders ctx
      Data := data
      IndexingConfig := { indexingConfig with Public := some false } } }

/-- `sendSurveyIndexerMessage`: builds the indexing config (searchable
aliases, parent refs) and routes to the delete or create/update envelope. -/
def sendSurveyIndexerMessage (ctx : Ctx) (subject : String)
    (action : MessageAction) (data : SurveyData) : List NatsMsg :=
  let nameAndAliases := if data.SurveyTitle != "" then [data.SurveyTitle] else []
  let parentRefs := buildSurveyParentRefs data.Committees
  let indexingConfig : IndexingConfig := {
    ObjectID := data.UID
    AccessCheckObject := "survey:" ++ data.UID
    AccessCheckRelation := "viewer"
    HistoryCheckObject := "survey:" ++ data.UID
    HistoryCheckRelation := "auditor"
    SortName := data.SurveyTitle
    NameAndAliases := nameAndAliases
    ParentRefs := parentRefs
    Fulltext := data.SurveyTitle
    Public := none }
  if action = .deleted then
    [sendIndexerDeleteMessage ctx subject action data.UID indexingConfig]
  else
    [sendIndexerCreateUpdateMessage ctx subject action (.surveyFull data) indexingConfig]

/-- The committee half of one iteration of the reference-building loop
of `sendSurveyAccessMessage`: committee UIDs are appended per occurrence
(no de-duplication). -/
def committeeRefsStep (committeeRefs : List String)
    (committee : SurveyCommitteeData) : List String :=
  if committee.CommitteeUID != "" then committeeRefs ++ [committee.CommitteeUID]
  else committeeRefs

/-- The project half of one iteration of the reference-building loop of
`sendSurveyAccessMessage`: project UIDs are de-duplicated against the
project accumulator. -/
def projectRefsStep (projectRefs : List String)
    (committee : SurveyCommitteeData) : List String :=
  if committee.ProjectUID != "" then
    if projectRefs.contains committee.ProjectUID then projectRefs
    else projectRefs ++ [committee.ProjectUID]
  else projectRefs

/-- One iteration of the reference-building loop of
`sendSurveyAccessMessage` (the two accumulators are independent). -/
def surveyAccessRefsStep (acc : List String × List String)
    (committee : SurveyCommitteeData) : List String × List String :=
  (committeeRefsStep acc.1 committee, projectRefsStep acc.2 committee)

/-- The reference-building loop of `sendSurveyAccessMessage`. -/
def buildSurveyAccessRefs (committees : List SurveyCommitteeData) :
    List String × List String :=
  committees.foldl surveyAccessRefsStep ([], [])

/-- `sendSurveyAccessMessage`: references map keyed by committee/project;
the whole message is skipped when both reference lists are empty. -/
def sendSurveyAccessMessage (survey : SurveyData) : List NatsMsg :=
  let refs := buildSurveyAccessRefs survey.Committees
  let references : List (String × List String) :=
    (if refs.1.length > 0 then [("committee", refs.1)] else []) ++
      (if refs.2.length > 0 then [("project", refs.2)] else [])
  if references.length = 0 then []
  else
    [{ subject := UpdateAccessSubject
       payload := .fga {
         ObjectType := "survey"
         Operation := "update_access"
         Data := {
           uid := survey.UID
           public := some false
           references := some references } } }]

/-- `sendDeleteAccessMessage`: object type and identifier only. -/
def sendDeleteAccessMessage (objectType : String) (uid : String) : NatsMsg :=
  { subject := DeleteAccessSubject
    payload := .fga {
      ObjectType := objectType
      Operation := "delete_access"
      Data := { uid := uid } } }

/-- `PublishSurveyEvent`: indexer message first, then either the
unconditional delete-access message or the (possibly skipped)
update-access message. -/
def publishSurveyEvent (ctx : Ctx) (action : MessageAction) (survey : SurveyData) :
    List NatsMsg :=
  sendSurveyIndexerMessage ctx IndexSurveySubject action survey ++
    (if action = .deleted then [sendDeleteAccessMessage "survey" survey.UID]
     else sendSurveyAccessMessage survey)

/-- `sendSurveyResponseIndexerMessage`: response indexing config (email
alias, project and survey parent refs) and routing by action. -/
def sendSurveyResponseIndexerMessage (ctx : Ctx) (subject : String)
    (action : MessageAction) (data : SurveyResponseData) : List NatsMsg :=
  let nameAndAliases := if data.Email != "" then [data.Email] else []
  let parentRefs :=
    (if data.Project.ProjectUID != "" then ["project:" ++ data.Project.ProjectUID] else []) ++
      (if data.SurveyUID != "" then ["survey:" ++ data.SurveyUID] else [])
  let indexingConfig : IndexingConfig := {
    ObjectID := data.UID
    AccessCheckObject := "survey:" ++ data.SurveyUID
    AccessCheckRelation := "viewer"
    HistoryCheckObject := "survey_response:" ++ data.UID
    HistoryCheckRelation := "auditor"
    SortName := data.Email
    NameAndAliases := nameAndAliases
    ParentRefs := parentRefs
    Fulltext := data.Email ++ " " ++ data.FirstName ++ " " ++ data.LastName
    Public := none }
  if action = .deleted then
    [sendIndexerDeleteMessage ctx subject action data.UID indexingConfig]
  else
    [sendIndexerCreateUpdateMessage ctx subject action (.responseFull data) indexingConfig]

/-- `sendSurveyResponseAccessMessage`: writer/viewer relations for the
respondent account when known, project/survey references when resolved;
skipped only when both maps are empty. -/
def sendSurveyResponseAccessMessage (data : SurveyResponseData) : List NatsMsg :=
  let relations : List (String × List String) :=
    if data.Username != "" then
      [("writer", [data.Username]), ("viewer", [data.Username])]
    else []
  let references : List (String × List String) :=
    (if data.Project.ProjectUID != "" then [("project", [data.Project.ProjectUID])] else []) ++
      (if data.SurveyUID != "" then [("survey", [data.SurveyUID])] else [])
  if relations.length = 0 ∧ references.length = 0 then []
  else
    [{ subject := UpdateAccessSubject
       payload := .fga {
         ObjectType := "survey_response"
         Operation := "update_access"
         Data := {
           uid := data.UID
           public := some false
           relations := some relations
           references := some references } } }]

/-- `PublishSurveyResponseEvent`. -/
def publishSurveyResponseEvent (ctx : Ctx) (action : MessageAction)
    (response : SurveyResponseData) : List NatsMsg :=
  sendSurveyResponseIndexerMessage ctx IndexSurveyResponseSubject action response ++
    (if action = .deleted then [sendDeleteAccessMessage "survey_response" response.UID]
     else sendSurveyResponseAccessMessage response)

/-! ## Idempotency store and event handlers (survey_event_handler.go and
the survey-response counterpart)

The `v1-mappings` KV bucket is modelled as the set of keys present
(values are an opaque marker).  `Get` failure = key absent; `Put` and
`Delete` are assumed to succeed (their Go failures are logged and never
change the outcome, so an always-succeeding store is the faithful model
of everything the handlers observe). -/

/-- `mappingsKV.Get` succeeding = key present. -/
def kvGetPresent (store : List String) (key : String) : Bool :=
  store.contains key

/-- `mappingsKV.Put` (idempotent set insert). -/
def kvPut (store : List String) (key : String) : List String :=
  if store.contains key then store else key :: store

/-- `mappingsKV.Delete`. -/
def kvDeleteKey (store : List String) (key : String) : List String :=
  store.filter (fun k => k != key)

/-- Outcome of one handler invocation: the NAK/ACK boolean the handler
returns, the action of the `Publish*Event` call it made (`none` when it
returned before publishing), and the mappings store afterwards. -/
structure HandlerResult where
  retry : Bool
  published : Option MessageAction
  store : List String
deriving DecidableEq, Repr

/-- The parent-reference validity loop of `handleSurveyUpdate`: at least
one committee entry with a resolved committee or project UID. -/
def hasValidParent (committees : List SurveyCommitteeData) : Bool :=
  committees.any (fun committee =>
    committee.CommitteeUID != "" || committee.ProjectUID != "")

/-- `handleSurveyUpdate`: convert, validate uid and parent references,
resolve the action from the mappings store, publish (outcome injected as
`pubErr`), and store the mapping only after a successful publish. -/
def handleSurveyUpdate (idm : IDMapperM) (key : String)
    (rawE : Except String SurveyDBRawJson) (store : List String)
    (pubErr : Option String) : HandlerResult :=
  match convertMapToSurveyData idm rawE with
  | .error _ => { retry := false, published := none, store := store }
  | .ok surveyData =>
    if surveyData.UID = "" then { retry := false, published := none, store := store }
    else if !(hasValidParent surveyData.Committees) then
      { retry := false, published := none, store := store }
    else
      let mappingKey := "survey." ++ surveyData.UID
      let indexerAction :=
        if kvGetPresent store mappingKey then MessageAction.updated
        else MessageAction.created
      match pubErr with
      | some e =>
          { retry := isTransientError (some e), published := some indexerAction
            store := store }
      | none =>
          { retry := false, published := some indexerAction
            store := kvPut store mappingKey }

/-- `handleSurveyDelete`: publish the delete event (minimal record), then
remove the mapping only after a successful publish. -/
def handleSurveyDelete (uid : String) (store : List String)
    (pubErr : Option String) : HandlerResult :=
  match pubErr with
  | some e =>
      { retry := isTransientError (some e), published := some .deleted, store := store }
  | none =>
      { retry := false, published := some .deleted
        store := kvDeleteKey store ("survey." ++ uid) }

/-- `handleSurveyResponseUpdate`: convert, validate uid, reject when the
parent project UID is unresolved, then publish and store the mapping
only after a successful publish. -/
def handleSurveyResponseUpdate (idm : IDMapperM) (key : String)
    (rawE : Except String SurveyResponseDBRawJson) (store : List String)
    (pubErr : Option String) : HandlerResult :=
  match convertMapToSurveyResponseData idm rawE with
  | .error _ => { retry := false, published := none, store := store }
  | .ok responseData =>
    if responseData.UID = "" then { retry := false, published := none, store := store }
    else if responseData.Project.ProjectUID = "" then
      { retry := false, published := none, store := store }
    else
      let mappingKey := "survey_response." ++ responseData.UID
      let indexerAction :=
        if kvGetPresent store mappingKey then MessageAction.updated
        else MessageAction.created
      match pubErr with
      | some e =>
          { retry := isTransientError (some e), published := some indexerAction
            store := store }
      | none =>
          { retry := false, published := some indexerAction
            store := kvPut store mappingKey }

/-- `handleSurveyResponseDelete`. -/
def handleSurveyResponseDelete (uid : String) (store : List String)
    (pubErr : Option String) : HandlerResult :=
  match pubErr with
  | some e =>
      { retry := isTransientError (some e), published := some .deleted, store := store }
  | none =>
      { retry := false, published := some .deleted
        store := kvDeleteKey store ("survey_response." ++ uid) }

/-! ## KV routing (the consumer callback chain) -/

/-- jetstream.KeyValueOp as seen by `kvHandler` (the default branch of
its switch covers any other value of the underlying integer type). -/
inductive KVOp where
  | putOp : KVOp
  | deleteOp : KVOp
  | purgeOp : KVOp
  | unknownOp : KVOp
deriving DecidableEq, Repr

/-- The body of a PUT notification: either undecodable as a JSON object,
or a JSON object together with its two possible decodings into the
temporary raw structs (whichever of the two the key routing selects). -/
inductive KVBody where
  | badJson : KVBody
  | jsonObj : Except String SurveyDBRawJson →
      Except String SurveyResponseDBRawJson → KVBody
deriving Repr

/-- `strings.SplitN(key, ".", 2)`: the part before the first dot, and
(when a dot exists) the remainder after it. -/
def breakAtDot : List Char → List Char × Option (List Char)
  | [] => ([], none)
  | c :: cs =>
      if c = '.' then ([], some cs)
      else
        let rest := breakAtDot cs
        (c :: rest.1, rest.2)

/-- Key splitting used by both `handleKVPut` and `handleKVDelete`. -/
def splitKeyOnce (key : String) : String × Option String :=
  let split := breakAtDot key.toList
  (String.mk split.1, split.2.map String.mk)

/-- `handleKVPut`: decode the body, split the key, and route by the
entity-type prefix; any other prefix is acknowledged and skipped. -/
def handleKVPut (idm : IDMapperM) (key : String) (body : KVBody)
    (store : List String) (pubErr : Option String) : HandlerResult :=
  match body with
  | .badJson => { retry := false, published := none, store := store }
  | .jsonObj asSurvey asResponse =>
    let pfx := (splitKeyOnce key).1
    if pfx = "itx-surveys" then
      handleSurveyUpdate idm key asSurvey store pubErr
    else if pfx = "itx-survey-responses" then
      handleSurveyResponseUpdate idm key asResponse store pubErr
    else { retry := false, published := none, store := store }

/-- `handleKVDelete`: a key with no dot is skipped; otherwise the
remainder after the first dot is the legacy uid and routing is by
prefix, with unsupported prefixes acknowledged and skipped. -/
def handleKVDelete (key : String) (store : List String)
    (pubErr : Option String) : HandlerResult :=
  match (splitKeyOnce key).2 with
  | none => { retry := false, published := none, store := store }
  | some uid =>
    let pfx := (splitKeyOnce key).1
    if pfx = "itx-surveys" then handleSurveyDelete uid store pubErr
    else if pfx = "itx-survey-responses" then handleSurveyResponseDelete uid store pubErr
    else { retry := false, published := none, store := store }

/-- `kvHandler`: routes by operation; unknown operations are
acknowledged. -/
def kvHandler (idm : IDMapperM) (key : String) (body : KVBody) (op : KVOp)
    (store : List String) (pubErr : Option String) : HandlerResult :=
  match op with
  | .putOp => handleKVPut idm key body store pubErr
  | .deleteOp => handleKVDelete key store pubErr
  | .purgeOp => handleKVDelete key store pubErr
  | .unknownOp => { retry := false, published := none, store := store }

/-- The acknowledgment decision of `kvMessageHandler`. -/
inductive AckDecision where
  | ack : AckDecision
  | nak : AckDecision
deriving DecidableEq, Repr

/-- `kvMessageHandler` tail: NAK exactly when the handler chain asked
for a retry, ACK otherwise. -/
def kvMessageAck (r : HandlerResult) : AckDecision :=
  if r.retry then .nak else .ack

/-! ## Repeated processing of one entity (for the idempotency analysis) -/

/-- Processes `n` consecutive update notifications for the same raw
record with every publish succeeding, collecting the action of each
publish and threading the mappings store. -/
def iterateSurveyUpdates (idm : IDMapperM) (key : String)
    (rawE : Except String SurveyDBRawJson) :
    Nat → List String → List (Option MessageAction) × List String
  | 0, store => ([], store)
  | n + 1, store =>
      let r := handleSurveyUpdate idm key rawE store none
      let rest := iterateSurveyUpdates idm key rawE n r.store
      (r.published :: rest.1, rest.2)

/-- Processes `n` consecutive update notifications for the same raw
survey-response record with every publish succeeding, collecting the
action of each publish and threading the mappings store. -/
def iterateSurveyResponseUpdates (idm : IDMapperM) (key : String)
    (rawE : Except String SurveyResponseDBRawJson) :
    Nat → List String → List (Option MessageAction) × List String
  | 0, store => ([], store)
  | n + 1, store =>
      let r := handleSurveyResponseUpdate idm key rawE store none
      let rest := iterateSurveyResponseUpdates idm key rawE n r.store
      (r.published :: rest.1, rest.2)

/-! ## Concrete fixtures used by the witness theorems -/

/-- A raw v1 survey with one committee whose v1 committee SFID is `c1`. -/
def rawW : SurveyDBRawJson :=
  { ID := "s1", Committees := [{ CommitteeID := "c1" }] }

/-- An identifier mapper resolving committee `c1` to `C1` and failing on
every project lookup. -/
def idmW : IDMapperM :=
  { mapCommitteeV1ToV2 := fun s => if s = "c1" then some "C1" else none
    mapProjectV1ToV2 := fun _ => none }

/-- The transformed survey `convertMapToSurveyData idmW (.ok rawW)`
produces. -/
def sdW : SurveyData :=
  { UID := "s1", ID := "s1"
    Committees := [{ CommitteeUID := "C1", CommitteeID := "c1" }] }

/-- A raw v1 survey whose committee entries carry no identifiers at all. -/
def rawOrphanW : SurveyDBRawJson :=
  { ID := "s2", Committees := [{}, {}] }

/-- The transformed survey for `rawOrphanW`. -/
def sdOrphanW : SurveyData :=
  { UID := "s2", ID := "s2", Committees := [{}, {}] }

/-- A raw v1 survey response whose project SFID is `p1` and whose
committee SFID is `c9`. -/
def rawRespW : SurveyResponseDBRawJson :=
  { ID := "r1", SurveyID := "s1", Project := { ID := "p1" }, CommitteeID := "c9" }

/-- An identifier mapper resolving project `p1` to `P1` and failing on
every committee lookup. -/
def idmRespW : IDMapperM :=
  { mapCommitteeV1ToV2 := fun _ => none
    mapProjectV1ToV2 := fun s => if s = "p1" then some "P1" else none }

/-- The transformed response `convertMapToSurveyResponseData idmRespW
(.ok rawRespW)` produces. -/
def rdW : SurveyResponseData :=
  { UID := "r1", ID := "r1", SurveyID := "s1", SurveyUID := "s1"
    Project := { ProjectUID := "P1", ID := "p1" }, CommitteeID := "c9" }

/-- A raw v1 survey whose `nps_value` arrived as a JSON bool: not a
valid numeric encoding, so its transformation must fail. -/
def rawBadW : SurveyDBRawJson := { ID := "s9", NPSValue := .boolV true }

/-- A committee link with a resolved committee UID `X` and no project. -/
def committeeDupW : SurveyCommitteeData := { CommitteeUID := "X" }

/-- A transformed survey carrying the same resolved committee UID twice. -/
def surveyDupW : SurveyData :=
  { UID := "s3", ID := "s3", Committees := [committeeDupW, committeeDupW] }

/-! ## Theorems -/

theorem hasPfxChars_iff (hay pat : List Char) :
    hasPfxChars hay pat = true ↔ ∃ t, hay = pat ++ t := by
  induction pat generalizing hay with
  | nil => simp [hasPfxChars]
  | cons b bs ih =>
    cases hay with
    | nil => simp [hasPfxChars]
    | cons a as =>
      simp only [hasPfxChars, Bool.and_eq_true, decide_eq_true_eq, ih]
      constructor
      · rintro ⟨rfl, t, rfl⟩
        exact ⟨t, rfl⟩
      · rintro ⟨t, h⟩
        cases h
        exact ⟨rfl, t, rfl⟩

theorem containsChars_iff (hay pat : List Char) :
    containsChars hay pat = true ↔ ∃ l r, hay = l ++ pat ++ r := by
  induction hay with
  | nil =>
    simp only [containsChars, List.isEmpty_iff]
    constructor
    · rintro rfl
      exact ⟨[], [], rfl⟩
    · rintro ⟨l, r, h⟩
      rcases List.append_eq_nil.mp (List.append_eq_nil.mp h.symm).1 with ⟨-, h2⟩
      exact h2
  | cons a as ih =>
    simp only [containsChars, Bool.or_eq_true, hasPfxChars_iff, ih]
    constructor
    · rintro (⟨t, h⟩ | ⟨l, r, h⟩)
      · exact ⟨[], t, by simpa using h⟩
      · exact ⟨a :: l, r, by simp [h]⟩
    · rintro ⟨l, r, h⟩
      cases l with
      | nil => exact Or.inl ⟨r, by simpa using h⟩
      | cons x xs =>
        simp only [List.cons_append, List.cons.injEq] at h
        exact Or.inr ⟨xs, r, h.2⟩

theorem strContainsSub_iff (s sub : String) :
    strContainsSub s sub = true ↔ ∃ l r, s.toList = l ++ sub.toList ++ r := by
  simp [strContainsSub, containsChars_iff]

/-- Claim C8: `isTransientError` returns true exactly for a non-nil
error whose textual description contains at least one of the substrings
"timeout", "connection", "unavailable" or "deadline"; a nil error and
every text containing none of them give false (permanent failure). -/
theorem c8_isTransientError_characterization :
    (∀ e : Option String, isTransientError e = true ↔
      ∃ s, e = some s ∧
        ((∃ l r, s.toList = l ++ "timeout".toList ++ r) ∨
         (∃ l r, s.toList = l ++ "connection".toList ++ r) ∨
         (∃ l r, s.toList = l ++ "unavailable".toList ++ r) ∨
         (∃ l r, s.toList = l ++ "deadline".toList ++ r))) ∧
    isTransientError none = false := by
  refine ⟨fun e => ?_, rfl⟩
  cases e with
  | none => simp [isTransientError]
  | some s =>
    simp only [isTransientError, strContainsSub_iff, Bool.or_eq_true,
      Option.some.injEq, exists_eq_left']
    simp only [or_assoc]

/-- Claim C1: the `convertToInt` coercion yields the same integer for a
JSON-string encoding and a JSON-number encoding of the same integer;
an empty string and an absent/null value coerce to 0; any other
unparseable value is an error, and a record carrying such a field is
dropped permanently by the update handlers (ACK, no publish, no retry),
for surveys (whose raw form also covers committees) and responses alike. -/
theorem c1_convertToInt_string_number_agree :
    (∀ s n, atoi s = some n →
      convertToInt (.strV s) = .ok n ∧ convertToInt (.numV n) = .ok n) ∧
    convertToInt (.strV "") = .ok 0 ∧
    convertToInt .nullV = .ok 0 ∧
    (∀ s, s ≠ "" → atoi s = none →
      convertToInt (.strV s) = .error "strconv.Atoi: parsing: invalid syntax") ∧
    (∀ b, convertToInt (.boolV b) = .error "invalid type for numeric field: bool") ∧
    (∀ idm key raw store pubErr e, unmarshalSurveyDBRaw raw = .error e →
      handleSurveyUpdate idm key (.ok raw) store pubErr =
        { retry := false, published := none, store := store }) ∧
    (∀ idm key raw store pubErr e, unmarshalSurveyResponseDBRaw raw = .error e →
      handleSurveyResponseUpdate idm key (.ok raw) store pubErr =
        { retry := false, published := none, store := store }) := by
  refine ⟨?_, rfl, rfl, ?_, fun b => rfl, ?_, ?_⟩
  · intro s n h
    refine ⟨?_, rfl⟩
    by_cases hs : s = ""
    · subst hs
      rw [(rfl : atoi "" = none)] at h
      cases h
    · simp [convertToInt, hs, h]
  · intro s hs h
    simp [convertToInt, hs, h]
  · intro idm key raw store pubErr e h
    simp [handleSurveyUpdate, convertMapToSurveyData, h]
  · intro idm key raw store pubErr e h
    simp [handleSurveyResponseUpdate, convertMapToSurveyResponseData, h]

/-- Concrete instantiation of the C1 theorem: "8" and 8 coerce to the
same integer 8, "oops" is a permanent conversion error, and a survey
whose nps_value arrived as a bool is dropped without publish or retry. -/
theorem c1_convertToInt_string_number_agree_witness :
    (convertToInt (.strV "8") = .ok 8 ∧ convertToInt (.numV 8) = .ok 8) ∧
    convertToInt (.strV "oops") = .error "strconv.Atoi: parsing: invalid syntax" ∧
    handleSurveyUpdate idmW "itx-surveys.s9" (.ok rawBadW) [] none =
      { retry := false, published := none, store := [] } :=
  ⟨c1_convertToInt_string_number_agree.1 "8" 8 (by decide),
   c1_convertToInt_string_number_agree.2.2.2.1 "oops" (by decide) (by decide),
   c1_convertToInt_string_number_agree.2.2.2.2.2.1 idmW "itx-surveys.s9" rawBadW [] none
     "failed to convert nps_value: invalid type for numeric field: bool" (by decide)⟩

/-- `hasValidParent` agrees with the existence of a committee link
carrying at least one resolved identifier. -/
theorem hasValidParent_iff (committees : List SurveyCommitteeData) :
    hasValidParent committees = true ↔
      ∃ c ∈ committees, c.CommitteeUID ≠ "" ∨ c.ProjectUID ≠ "" := by
  simp [hasValidParent, List.any_eq_true, bne_iff_ne]

/-- Unfolding of `handleSurveyUpdate` once the conversion result is
known. -/
theorem handleSurveyUpdate_eq (idm : IDMapperM) (key : String)
    (rawE : Except String SurveyDBRawJson) (store : List String)
    (pubErr : Option String) (sd : SurveyData)
    (hconv : convertMapToSurveyData idm rawE = .ok sd) :
    handleSurveyUpdate idm key rawE store pubErr =
      (if sd.UID = "" then { retry := false, published := none, store := store }
       else if !(hasValidParent sd.Committees) then
         { retry := false, published := none, store := store }
       else
         let mappingKey := "survey." ++ sd.UID
         let indexerAction :=
           if kvGetPresent store mappingKey then MessageAction.updated
           else MessageAction.created
         match pubErr with
         | some e =>
             { retry := isTransientError (some e), published := some indexerAction
               store := store }
         | none =>
             { retry := false, published := some indexerAction
               store := kvPut store mappingKey }) := by
  simp only [handleSurveyUpdate, hconv]

/-- Unfolding of `handleSurveyResponseUpdate` once the conversion result
is known. -/
theorem handleSurveyResponseUpdate_eq (idm : IDMapperM) (key : String)
    (rawE : Except String SurveyResponseDBRawJson) (store : List String)
    (pubErr : Option String) (rd : SurveyResponseData)
    (hconv : convertMapToSurveyResponseData idm rawE = .ok rd) :
    handleSurveyResponseUpdate idm key rawE store pubErr =
      (if rd.UID = "" then { retry := false, published := none, store := store }
       else if rd.Project.ProjectUID = "" then
         { retry := false, published := none, store := store }
       else
         let mappingKey := "survey_response." ++ rd.UID
         let indexerAction :=
           if kvGetPresent store mappingKey then MessageAction.updated
           else MessageAction.created
         match pubErr with
         | some e =>
             { retry := isTransientError (some e), published := some indexerAction
               store := store }
         | none =>
             { retry := false, published := some indexerAction
               store := kvPut store mappingKey }) := by
  simp only [handleSurveyResponseUpdate, hconv]

/-- Claim C2: for a transformed survey with non-empty uid, the update
handler invokes the publisher iff some committee link carries a resolved
committee or project UID; with no such link (in particular an empty
committee list) it performs no publish, leaves the store untouched and
returns false (ACK and drop, never retry). -/
theorem c2_survey_update_publish_iff (idm : IDMapperM) (key : String)
    (rawE : Except String SurveyDBRawJson) (store : List String)
    (pubErr : Option String) (sd : SurveyData)
    (hconv : convertMapToSurveyData idm rawE = .ok sd)
    (huid : sd.UID ≠ "") :
    ((handleSurveyUpdate idm key rawE store pubErr).published.isSome = true ↔
      ∃ c ∈ sd.Committees, c.CommitteeUID ≠ "" ∨ c.ProjectUID ≠ "") ∧
    ((∀ c ∈ sd.Committees, c.CommitteeUID = "" ∧ c.ProjectUID = "") →
      handleSurveyUpdate idm key rawE store pubErr =
        { retry := false, published := none, store := store }) := by
  rw [handleSurveyUpdate_eq idm key rawE store pubErr sd hconv, if_neg huid]
  by_cases hp : hasValidParent sd.Committees = true
  · rw [hp]
    constructor
    · simp only [Bool.not_true, Bool.false_eq_true, if_false]
      cases pubErr <;> simp [(hasValidParent_iff sd.Committees).mp hp]
    · intro hall
      obtain ⟨c, hc, hor⟩ := (hasValidParent_iff sd.Committees).mp hp
      rcases hall c hc with ⟨h1, h2⟩
      rcases hor with h | h
      · exact absurd h1 h
      · exact absurd h2 h
  · rw [Bool.not_eq_true] at hp
    rw [hp]
    constructor
    · simp only [Bool.not_false, if_true, Option.isSome_none, Bool.false_eq_true,
        false_iff]
      intro hex
      exact absurd ((hasValidParent_iff sd.Committees).mpr hex) (by simp [hp])
    · intro _
      simp

/-- Concrete instantiation of the C2 theorem: a survey with one resolved
committee link is published; a survey with two identifier-less committee
links is dropped without publish or retry. -/
theorem c2_survey_update_publish_iff_witness :
    (handleSurveyUpdate idmW "itx-surveys.s1" (.ok rawW) [] none).published.isSome = true ∧
    handleSurveyUpdate idmW "itx-surveys.s2" (.ok rawOrphanW) [] none =
      { retry := false, published := none, store := [] } := by
  constructor
  · exact (c2_survey_update_publish_iff idmW "itx-surveys.s1" (.ok rawW) [] none sdW
      (by decide) (by decide)).1.mpr
      ⟨{ CommitteeUID := "C1", CommitteeID := "c1" }, by decide, by decide⟩
  · exact (c2_survey_update_publish_iff idmW "itx-surveys.s2" (.ok rawOrphanW) [] none
      sdOrphanW (by decide) (by decide)).2 (by decide)

/-- Claim C3: a transformed response with non-empty uid is dropped (no
publish, ACK, store untouched) exactly when its parent project UID is
unresolved, even if its committee UID resolved; and a response whose
project resolves while its committee lookup fails still converts
successfully, with the committee UID left empty. -/
theorem c3_response_project_gate (idm : IDMapperM) (key : String)
    (rawE : Except String SurveyResponseDBRawJson) (store : List String)
    (pubErr : Option String) (rd : SurveyResponseData)
    (hconv : convertMapToSurveyResponseData idm rawE = .ok rd)
    (huid : rd.UID ≠ "") :
    (rd.Project.ProjectUID = "" →
      handleSurveyResponseUpdate idm key rawE store pubErr =
        { retry := false, published := none, store := store }) ∧
    (rd.Project.ProjectUID ≠ "" →
      (handleSurveyResponseUpdate idm key rawE store pubErr).published.isSome = true) ∧
    (∀ raw db pu, unmarshalSurveyResponseDBRaw raw = .ok db →
      db.Project.ID ≠ "" → idm.mapProjectV1ToV2 db.Project.ID = some pu →
      db.CommitteeID ≠ "" → idm.mapCommitteeV1ToV2 db.CommitteeID = none →
      ∃ rd2, convertMapToSurveyResponseData idm (.ok raw) = .ok rd2 ∧
        rd2.Project.ProjectUID = pu ∧ rd2.CommitteeUID = "") := by
  refine ⟨?_, ?_, ?_⟩
  · intro hpu
    rw [handleSurveyResponseUpdate_eq idm key rawE store pubErr rd hconv, if_neg huid,
      if_pos hpu]
  · intro hpu
    rw [handleSurveyResponseUpdate_eq idm key rawE store pubErr rd hconv, if_neg huid,
      if_neg hpu]
    cases pubErr <;> simp
  · intro raw db pu hun hpid hpmap hcid hcmap
    refine ⟨buildSurveyResponseData idm db, ?_, ?_, ?_⟩
    · simp [convertMapToSurveyResponseData, hun]
    · simp [buildSurveyResponseData, hpid, hpmap, hcid, hcmap]
    · simp [buildSurveyResponseData, hpid, hpmap, hcid, hcmap]

/-- Concrete instantiation of the C3 theorem: `rawRespW` resolves its
project to `P1` while its committee lookup fails, and is still
published with an empty committee UID. -/
theorem c3_response_project_gate_witness :
    (handleSurveyResponseUpdate idmRespW "itx-survey-responses.r1" (.ok rawRespW)
      [] none).published.isSome = true ∧
    (∃ rd2, convertMapToSurveyResponseData idmRespW (.ok rawRespW) = .ok rd2 ∧
      rd2.Project.ProjectUID = "P1" ∧ rd2.CommitteeUID = "") := by
  have h := c3_response_project_gate idmRespW "itx-survey-responses.r1" (.ok rawRespW)
    [] none rdW (by decide) (by decide)
  refine ⟨h.2.1 (by decide), ?_⟩
  exact h.2.2 rawRespW
    { ID := "r1", SurveyID := "s1", Project := { ID := "p1" }, CommitteeID := "c9" }
    "P1" (by decide) (by decide) (by decide) (by decide) (by decide)

/-- A key just written is present. -/
theorem kvGetPresent_kvPut_self (store : List String) (k : String) :
    kvGetPresent (kvPut store k) k = true := by
  by_cases h : store.contains k = true
  · rw [kvPut, if_pos h]
    exact h
  · rw [kvPut, if_neg h]
    simp [kvGetPresent]

/-- Writing an already-present key leaves the store unchanged. -/
theorem kvPut_of_present (store : List String) (k : String)
    (h : kvGetPresent store k = true) : kvPut store k = store := by
  have h2 : store.contains k = true := h
  rw [kvPut, if_pos h2]

/-- A key just deleted is absent. -/
theorem kvGetPresent_kvDeleteKey_self (store : List String) (k : String) :
    kvGetPresent (kvDeleteKey store k) k = false := by
  simp only [kvGetPresent, kvDeleteKey]
  rw [Bool.eq_false_iff]
  intro hc
  have hm : k ∈ store.filter (fun x => x != k) := by
    simpa using hc
  have hne := (List.mem_filter.mp hm).2
  simp at hne

/-- One update of a valid survey with a successful publish: the action
comes from the pre-publish store lookup and the mapping is written
afterwards. -/
theorem handleSurveyUpdate_valid_none (idm : IDMapperM) (key : String)
    (rawE : Except String SurveyDBRawJson) (sd : SurveyData) (store : List String)
    (hconv : convertMapToSurveyData idm rawE = .ok sd)
    (huid : sd.UID ≠ "") (hpar : hasValidParent sd.Committees = true) :
    handleSurveyUpdate idm key rawE store none =
      { retry := false
        published := some (if kvGetPresent store ("survey." ++ sd.UID) then
          MessageAction.updated else MessageAction.created)
        store := kvPut store ("survey." ++ sd.UID) } := by
  rw [handleSurveyUpdate_eq idm key rawE store none sd hconv, if_neg huid, hpar]
  simp

/-- Once the mapping key is present, every further successful update
reports "updated" and leaves the store unchanged. -/
theorem iterateSurveyUpdates_present (idm : IDMapperM) (key : String)
    (rawE : Except String SurveyDBRawJson) (sd : SurveyData)
    (hconv : convertMapToSurveyData idm rawE = .ok sd)
    (huid : sd.UID ≠ "") (hpar : hasValidParent sd.Committees = true) :
    ∀ n store, kvGetPresent store ("survey." ++ sd.UID) = true →
      (iterateSurveyUpdates idm key rawE n store).1 =
        List.replicate n (some MessageAction.updated) := by
  intro n
  induction n with
  | zero => intro store _; rfl
  | succ m ih =>
    intro store h
    rw [iterateSurveyUpdates,
      handleSurveyUpdate_valid_none idm key rawE sd store hconv huid hpar]
    simp only [h, if_true, kvPut_of_present store _ h, List.replicate_succ]
    exact congrArg _ (ih store h)

/-- One update of a valid survey response with a successful publish: the
action comes from the pre-publish store lookup and the mapping is
written afterwards. -/
theorem handleSurveyResponseUpdate_valid_none (idm : IDMapperM) (key : String)
    (rawE : Except String SurveyResponseDBRawJson) (rd : SurveyResponseData)
    (store : List String)
    (hconv : convertMapToSurveyResponseData idm rawE = .ok rd)
    (huid : rd.UID ≠ "") (hproj : rd.Project.ProjectUID ≠ "") :
    handleSurveyResponseUpdate idm key rawE store none =
      { retry := false
        published := some (if kvGetPresent store ("survey_response." ++ rd.UID) then
          MessageAction.updated else MessageAction.created)
        store := kvPut store ("survey_response." ++ rd.UID) } := by
  rw [handleSurveyResponseUpdate_eq idm key rawE store none rd hconv, if_neg huid,
    if_neg hproj]

/-- Once the response mapping key is present, every further successful
update reports "updated" and leaves the store unchanged. -/
theorem iterateSurveyResponseUpdates_present (idm : IDMapperM) (key : String)
    (rawE : Except String SurveyResponseDBRawJson) (rd : SurveyResponseData)
    (hconv : convertMapToSurveyResponseData idm rawE = .ok rd)
    (huid : rd.UID ≠ "") (hproj : rd.Project.ProjectUID ≠ "") :
    ∀ n store, kvGetPresent store ("survey_response." ++ rd.UID) = true →
      (iterateSurveyResponseUpdates idm key rawE n store).1 =
        List.replicate n (some MessageAction.updated) := by
  intro n
  induction n with
  | zero => intro store _; rfl
  | succ m ih =>
    intro store h
    rw [iterateSurveyResponseUpdates,
      handleSurveyResponseUpdate_valid_none idm key rawE rd store hconv huid hproj]
    simp only [h, if_true, kvPut_of_present store _ h, List.replicate_succ]
    exact congrArg _ (ih store h)

/-- Claim C4: with every store operation succeeding, and for both entity
kinds: a valid record's first update publishes "created" and each
subsequent one "updated"; the action is resolved from the store key
`<kind>.<uid>` before the publish; the mapping entry is written after a
successful create/update publish and removed after a successful delete
publish, after which the next update is "created" again. -/
theorem c4_idempotency_action_resolution (idm idm2 : IDMapperM) (key key2 : String)
    (rawE : Except String SurveyDBRawJson)
    (rawE2 : Except String SurveyResponseDBRawJson)
    (sd : SurveyData) (rd : SurveyResponseData)
    (hconv : convertMapToSurveyData idm rawE = .ok sd)
    (huid : sd.UID ≠ "") (hpar : hasValidParent sd.Committees = true)
    (hconv2 : convertMapToSurveyResponseData idm2 rawE2 = .ok rd)
    (huid2 : rd.UID ≠ "") (hproj : rd.Project.ProjectUID ≠ "") :
    (∀ store pubErr, (handleSurveyUpdate idm key rawE store pubErr).published =
      some (if kvGetPresent store ("survey." ++ sd.UID) then MessageAction.updated
        else MessageAction.created)) ∧
    (∀ store, (handleSurveyUpdate idm key rawE store none).store =
      kvPut store ("survey." ++ sd.UID)) ∧
    (∀ n store, kvGetPresent store ("survey." ++ sd.UID) = false →
      (iterateSurveyUpdates idm key rawE (n + 1) store).1 =
        some MessageAction.created :: List.replicate n (some MessageAction.updated)) ∧
    (∀ store, (handleSurveyDelete sd.UID store none).store =
      kvDeleteKey store ("survey." ++ sd.UID)) ∧
    (∀ store, kvGetPresent ((handleSurveyDelete sd.UID store none).store)
      ("survey." ++ sd.UID) = false) ∧
    (∀ store, (handleSurveyUpdate idm key rawE
      ((handleSurveyDelete sd.UID store none).store) none).published =
        some MessageAction.created) ∧
    (∀ store pubErr, (handleSurveyResponseUpdate idm2 key2 rawE2 store pubErr).published =
      some (if kvGetPresent store ("survey_response." ++ rd.UID) then
        MessageAction.updated else MessageAction.created)) ∧
    (∀ store, (handleSurveyResponseUpdate idm2 key2 rawE2 store none).store =
      kvPut store ("survey_response." ++ rd.UID)) ∧
    (∀ n store, kvGetPresent store ("survey_response." ++ rd.UID) = false →
      (iterateSurveyResponseUpdates idm2 key2 rawE2 (n + 1) store).1 =
        some MessageAction.created :: List.replicate n (some MessageAction.updated)) ∧
    (∀ store, (handleSurveyResponseDelete rd.UID store none).store =
      kvDeleteKey store ("survey_response." ++ rd.UID)) ∧
    (∀ store, kvGetPresent ((handleSurveyResponseDelete rd.UID store none).store)
      ("survey_response." ++ rd.UID) = false) ∧
    (∀ store, (handleSurveyResponseUpdate idm2 key2 rawE2
      ((handleSurveyResponseDelete rd.UID store none).store) none).published =
        some MessageAction.created) := by
  refine ⟨?_, ?_, ?_, ?_, ?_, ?_, ?_, ?_, ?_, ?_, ?_, ?_⟩
  · intro store pubErr
    rw [handleSurveyUpdate_eq idm key rawE store pubErr sd hconv, if_neg huid, hpar]
    cases pubErr <;> simp
  · intro store
    rw [handleSurveyUpdate_valid_none idm key rawE sd store hconv huid hpar]
  · intro n store h
    rw [iterateSurveyUpdates,
      handleSurveyUpdate_valid_none idm key rawE sd store hconv huid hpar]
    simp only [h, if_false, Bool.false_eq_true]
    exact congrArg _ (iterateSurveyUpdates_present idm key rawE sd hconv huid hpar n _
      (kvGetPresent_kvPut_self store _))
  · intro store
    rfl
  · intro store
    exact kvGetPresent_kvDeleteKey_self store _
  · intro store
    rw [handleSurveyUpdate_valid_none idm key rawE sd _ hconv huid hpar,
      show (handleSurveyDelete sd.UID store none).store =
        kvDeleteKey store ("survey." ++ sd.UID) from rfl,
      kvGetPresent_kvDeleteKey_self store _]
    rfl
  · intro store pubErr
    rw [handleSurveyResponseUpdate_eq idm2 key2 rawE2 store pubErr rd hconv2,
      if_neg huid2, if_neg hproj]
    cases pubErr <;> simp
  · intro store
    rw [handleSurveyResponseUpdate_valid_none idm2 key2 rawE2 rd store hconv2 huid2 hproj]
  · intro n store h
    rw [iterateSurveyResponseUpdates,
      handleSurveyResponseUpdate_valid_none idm2 key2 rawE2 rd store hconv2 huid2 hproj]
    simp only [h, if_false, Bool.false_eq_true]
    exact congrArg _ (iterateSurveyResponseUpdates_present idm2 key2 rawE2 rd hconv2
      huid2 hproj n _ (kvGetPresent_kvPut_self store _))
  · intro store
    rfl
  · intro store
    exact kvGetPresent_kvDeleteKey_self store _
  · intro store
    rw [handleSurveyResponseUpdate_valid_none idm2 key2 rawE2 rd _ hconv2 huid2 hproj,
      show (handleSurveyResponseDelete rd.UID store none).store =
        kvDeleteKey store ("survey_response." ++ rd.UID) from rfl,
      kvGetPresent_kvDeleteKey_self store _]
    rfl

/-- Concrete instantiation of the C4 theorem: three consecutive updates
of the same survey, and of the same survey response, from an empty store
yield created, updated, updated. -/
theorem c4_idempotency_action_resolution_witness :
    (iterateSurveyUpdates idmW "itx-surveys.s1" (.ok rawW) 3 []).1 =
      [some MessageAction.created, some MessageAction.updated,
       some MessageAction.updated] ∧
    (iterateSurveyResponseUpdates idmRespW "itx-survey-responses.r1"
        (.ok rawRespW) 3 []).1 =
      [some MessageAction.created, some MessageAction.updated,
       some MessageAction.updated] := by
  have h := c4_idempotency_action_resolution idmW idmRespW "itx-surveys.s1"
    "itx-survey-responses.r1" (.ok rawW) (.ok rawRespW) sdW rdW
    (by decide) (by decide) (by decide) (by decide) (by decide) (by decide)
  constructor
  · rw [h.2.2.1 2 [] (by decide)]
    rfl
  · rw [h.2.2.2.2.2.2.2.2.1 2 [] (by decide)]
    rfl


/-- Claim C10: when the publish step fails (with any error, transient or
permanent), none of the four handlers touches the mappings store, and
the survey/response update handlers would resolve the same action on a
redelivery of the same message against the same store. -/
theorem c10_store_unchanged_on_publish_error (idm : IDMapperM) (key : String)
    (rawE : Except String SurveyDBRawJson)
    (rawE2 : Except String SurveyResponseDBRawJson)
    (uid uid2 : String) (store : List String) (e : String) :
    (handleSurveyUpdate idm key rawE store (some e)).store = store ∧
    (handleSurveyDelete uid store (some e)).store = store ∧
    (handleSurveyResponseUpdate idm key rawE2 store (some e)).store = store ∧
    (handleSurveyResponseDelete uid2 store (some e)).store = store ∧
    (handleSurveyUpdate idm key rawE store (some e)).published =
      (handleSurveyUpdate idm key rawE store none).published ∧
    (handleSurveyResponseUpdate idm key rawE2 store (some e)).published =
      (handleSurveyResponseUpdate idm key rawE2 store none).published := by
  have hs : (handleSurveyUpdate idm key rawE store (some e)).store = store ∧
      (handleSurveyUpdate idm key rawE store (some e)).published =
        (handleSurveyUpdate idm key rawE store none).published := by
    cases hc : convertMapToSurveyData idm rawE with
    | error msg => simp [handleSurveyUpdate, hc]
    | ok sd =>
      rw [handleSurveyUpdate_eq idm key rawE store (some e) sd hc,
        handleSurveyUpdate_eq idm key rawE store none sd hc]
      by_cases h1 : sd.UID = ""
      · simp [h1]
      · by_cases h2 : hasValidParent sd.Committees = true
        · simp [h1, h2]
        · rw [Bool.not_eq_true] at h2
          simp [h1, h2]
  have hr : (handleSurveyResponseUpdate idm key rawE2 store (some e)).store = store ∧
      (handleSurveyResponseUpdate idm key rawE2 store (some e)).published =
        (handleSurveyResponseUpdate idm key rawE2 store none).published := by
    cases hc : convertMapToSurveyResponseData idm rawE2 with
    | error msg => simp [handleSurveyResponseUpdate, hc]
    | ok rd =>
      rw [handleSurveyResponseUpdate_eq idm key rawE2 store (some e) rd hc,
        handleSurveyResponseUpdate_eq idm key rawE2 store none rd hc]
      by_cases h1 : rd.UID = ""
      · simp [h1]
      · by_cases h2 : rd.Project.ProjectUID = ""
        · simp [h1, h2]
        · simp [h1, h2]
  exact ⟨hs.1, rfl, hr.1, rfl, hs.2, hr.2⟩

/-- `handleSurveyUpdate` asks for a retry exactly when it reached the
publish step and the injected publish failure is transient. -/
theorem handleSurveyUpdate_retry_iff (idm : IDMapperM) (key : String)
    (rawE : Except String SurveyDBRawJson) (store : List String)
    (pubErr : Option String) :
    (handleSurveyUpdate idm key rawE store pubErr).retry = true ↔
      ((handleSurveyUpdate idm key rawE store pubErr).published.isSome = true ∧
       ∃ e, pubErr = some e ∧ isTransientError (some e) = true) := by
  cases hc : convertMapToSurveyData idm rawE with
  | error msg => simp [handleSurveyUpdate, hc]
  | ok sd =>
    rw [handleSurveyUpdate_eq idm key rawE store pubErr sd hc]
    by_cases h1 : sd.UID = ""
    · simp [h1]
    · by_cases h2 : hasValidParent sd.Committees = true
      · cases pubErr with
        | none => simp [h1, h2]
        | some e => simp [h1, h2]
      · rw [Bool.not_eq_true] at h2
        simp [h1, h2]

/-- `handleSurveyResponseUpdate` retry characterization. -/
theorem handleSurveyResponseUpdate_retry_iff (idm : IDMapperM) (key : String)
    (rawE : Except String SurveyResponseDBRawJson) (store : List String)
    (pubErr : Option String) :
    (handleSurveyResponseUpdate idm key rawE store pubErr).retry = true ↔
      ((handleSurveyResponseUpdate idm key rawE store pubErr).published.isSome = true ∧
       ∃ e, pubErr = some e ∧ isTransientError (some e) = true) := by
  cases hc : convertMapToSurveyResponseData idm rawE with
  | error msg => simp [handleSurveyResponseUpdate, hc]
  | ok rd =>
    rw [handleSurveyResponseUpdate_eq idm key rawE store pubErr rd hc]
    by_cases h1 : rd.UID = ""
    · simp [h1]
    · by_cases h2 : rd.Project.ProjectUID = ""
      · simp [h1, h2]
      · cases pubErr with
        | none => simp [h1, h2]
        | some e => simp [h1, h2]

/-- `handleSurveyDelete` retry characterization. -/
theorem handleSurveyDelete_retry_iff (uid : String) (store : List String)
    (pubErr : Option String) :
    (handleSurveyDelete uid store pubErr).retry = true ↔
      ((handleSurveyDelete uid store pubErr).published.isSome = true ∧
       ∃ e, pubErr = some e ∧ isTransientError (some e) = true) := by
  cases pubErr with
  | none => simp [handleSurveyDelete]
  | some e => simp [handleSurveyDelete]

/-- `handleSurveyResponseDelete` retry characterization. -/
theorem handleSurveyResponseDelete_retry_iff (uid : String) (store : List String)
    (pubErr : Option String) :
    (handleSurveyResponseDelete uid store pubErr).retry = true ↔
      ((handleSurveyResponseDelete uid store pubErr).published.isSome = true ∧
       ∃ e, pubErr = some e ∧ isTransientError (some e) = true) := by
  cases pubErr with
  | none => simp [handleSurveyResponseDelete]
  | some e => simp [handleSurveyResponseDelete]

/-- `handleKVDelete` retry characterization. -/
theorem handleKVDelete_retry_iff (key : String) (store : List String)
    (pubErr : Option String) :
    (handleKVDelete key store pubErr).retry = true ↔
      ((handleKVDelete key store pubErr).published.isSome = true ∧
       ∃ e, pubErr = some e ∧ isTransientError (some e) = true) := by
  rcases hsplit : (splitKeyOnce key).2 with _ | uid
  · simp [handleKVDelete, hsplit]
  · simp only [handleKVDelete, hsplit]
    by_cases h1 : (splitKeyOnce key).1 = "itx-surveys"
    · rw [if_pos h1]
      exact handleSurveyDelete_retry_iff uid store pubErr
    · rw [if_neg h1]
      by_cases h2 : (splitKeyOnce key).1 = "itx-survey-responses"
      · rw [if_pos h2]
        exact handleSurveyResponseDelete_retry_iff uid store pubErr
      · rw [if_neg h2]
        simp

/-- Claim C9: the consumed notification is negatively acknowledged iff
the dispatched handler chain returned true, and that happens exactly
when the chain reached a publish and the publish failure was classified
transient; every other outcome (success, undecodable body, missing uid,
orphaned record, unrecognized key prefix, unknown operation, permanent
publish failure) yields false and hence an acknowledgment. -/
theorem c9_nak_iff_transient (idm : IDMapperM) (key : String) (body : KVBody)
    (op : KVOp) (store : List String) (pubErr : Option String) :
    (kvMessageAck (kvHandler idm key body op store pubErr) = .nak ↔
      (kvHandler idm key body op store pubErr).retry = true) ∧
    ((kvHandler idm key body op store pubErr).retry = true ↔
      ((kvHandler idm key body op store pubErr).published.isSome = true ∧
       ∃ e, pubErr = some e ∧ isTransientError (some e) = true)) := by
  constructor
  · unfold kvMessageAck
    by_cases h : (kvHandler idm key body op store pubErr).retry = true
    · simp [h]
    · simp [h]
  · cases op with
    | putOp =>
      cases body with
      | badJson => simp [kvHandler, handleKVPut]
      | jsonObj asSurvey asResponse =>
        simp only [kvHandler, handleKVPut]
        by_cases h1 : (splitKeyOnce key).1 = "itx-surveys"
        · rw [if_pos h1]
          exact handleSurveyUpdate_retry_iff idm key asSurvey store pubErr
        · rw [if_neg h1]
          by_cases h2 : (splitKeyOnce key).1 = "itx-survey-responses"
          · rw [if_pos h2]
            exact handleSurveyResponseUpdate_retry_iff idm key asResponse store pubErr
          · rw [if_neg h2]
            simp
    | deleteOp => exact handleKVDelete_retry_iff key store pubErr
    | purgeOp => exact handleKVDelete_retry_iff key store pubErr
    | unknownOp => simp [kvHandler]

/-- Claim C5: for every delete event (survey or survey response, any
uid, regardless of the mappings store), the publisher emits exactly one
indexing envelope whose data is the bare identifier with the
indexing-configuration block still included, and exactly one
delete-access message carrying only the object type and identifier,
with no skip condition; the delete handlers always invoke this publish. -/
theorem c5_delete_publishes_exactly_two (ctx : Ctx) (uid : String)
    (store : List String) (pubErr : Option String) :
    publishSurveyEvent ctx .deleted { UID := uid, ID := uid } =
      [{ subject := IndexSurveySubject
         payload := .indexer
           { Action := .deleted
             Headers := buildHeaders ctx
             Data := .uidData uid
             IndexingConfig :=
               { ObjectID := uid
                 AccessCheckObject := "survey:" ++ uid
                 AccessCheckRelation := "viewer"
                 HistoryCheckObject := "survey:" ++ uid
                 HistoryCheckRelation := "auditor"
                 SortName := ""
                 NameAndAliases := []
                 ParentRefs := []
                 Fulltext := ""
                 Public := none } } },
       { subject := DeleteAccessSubject
         payload := .fga
           { ObjectType := "survey"
             Operation := "delete_access"
             Data := { uid := uid } } }] ∧
    publishSurveyResponseEvent ctx .deleted { UID := uid, ID := uid } =
      [{ subject := IndexSurveyResponseSubject
         payload := .indexer
           { Action := .deleted
             Headers := buildHeaders ctx
             Data := .uidData uid
             IndexingConfig :=
               { ObjectID := uid
                 AccessCheckObject := "survey:"
                 AccessCheckRelation := "viewer"
                 HistoryCheckObject := "survey_response:" ++ uid
                 HistoryCheckRelation := "auditor"
                 SortName := ""
                 NameAndAliases := []
                 ParentRefs := []
                 Fulltext := "  "
                 Public := none } } },
       { subject := DeleteAccessSubject
         payload := .fga
           { ObjectType := "survey_response"
             Operation := "delete_access"
             Data := { uid := uid } } }] ∧
    (handleSurveyDelete uid store pubErr).published = some .deleted ∧
    (handleSurveyResponseDelete uid store pubErr).published = some .deleted := by
  refine ⟨rfl, rfl, ?_, ?_⟩
  · cases pubErr <;> rfl
  · cases pubErr <;> rfl

/-- Committee links with no resolved identifiers contribute nothing to
the access-reference accumulators. -/
theorem foldl_surveyAccessRefsStep_all_empty (cs : List SurveyCommitteeData)
    (h : ∀ c ∈ cs, c.CommitteeUID = "" ∧ c.ProjectUID = "") :
    ∀ acc, cs.foldl surveyAccessRefsStep acc = acc := by
  induction cs with
  | nil => intro acc; rfl
  | cons c cs ih =>
    intro acc
    have hc := h c (by simp)
    have hstep : surveyAccessRefsStep acc c = acc := by
      simp [surveyAccessRefsStep, committeeRefsStep, projectRefsStep, hc.1, hc.2]
    rw [List.foldl_cons, hstep]
    exact ih (fun x hx => h x (by simp [hx])) acc

/-- Claim C7: a survey create/update whose committee links yield no
resolved committee or project UID publishes the indexing message but no
access-control message; a response access-control message is skipped
exactly when the respondent username, the resolved project UID and the
survey UID are all absent. -/
theorem c7_skip_access_when_no_refs (ctx : Ctx) (action : MessageAction)
    (survey : SurveyData) (hact : action ≠ .deleted)
    (h : ∀ c ∈ survey.Committees, c.CommitteeUID = "" ∧ c.ProjectUID = "") :
    sendSurveyAccessMessage survey = [] ∧
    (∃ env, publishSurveyEvent ctx action survey =
      [{ subject := IndexSurveySubject, payload := .indexer env }]) ∧
    (∀ rd : SurveyResponseData, sendSurveyResponseAccessMessage rd = [] ↔
      (rd.Username = "" ∧ rd.Project.ProjectUID = "" ∧ rd.SurveyUID = "")) := by
  have hrefs : buildSurveyAccessRefs survey.Committees = ([], []) := by
    rw [buildSurveyAccessRefs]
    exact foldl_surveyAccessRefsStep_all_empty survey.Committees h ([], [])
  have hmsg : sendSurveyAccessMessage survey = [] := by
    rw [sendSurveyAccessMessage, hrefs]
    simp
  refine ⟨hmsg, ?_, ?_⟩
  · refine ⟨{ Action := action
              Headers := buildHeaders ctx
              Data := .surveyFull survey
              IndexingConfig :=
                { ObjectID := survey.UID
                  AccessCheckObject := "survey:" ++ survey.UID
                  AccessCheckRelation := "viewer"
                  HistoryCheckObject := "survey:" ++ survey.UID
                  HistoryCheckRelation := "auditor"
                  SortName := survey.SurveyTitle
                  NameAndAliases :=
                    if survey.SurveyTitle != "" then [survey.SurveyTitle] else []
                  ParentRefs := buildSurveyParentRefs survey.Committees
                  Fulltext := survey.SurveyTitle
                  Public := some false } }, ?_⟩
    rw [publishSurveyEvent, if_neg hact, hmsg, List.append_nil,
      sendSurveyIndexerMessage]
    rw [if_neg hact]
    rfl
  · intro rd
    by_cases hU : rd.Username = "" <;> by_cases hP : rd.Project.ProjectUID = "" <;>
      by_cases hS : rd.SurveyUID = "" <;>
        simp [sendSurveyResponseAccessMessage, hU, hP, hS]

/-- `String.append` acts as list append on the underlying characters. -/
theorem stringDataAppend (a b : String) : (a ++ b).data = a.data ++ b.data := by
  cases a; cases b; rfl

/-- Strings with equal character lists are equal. -/
theorem stringDataEq {a b : String} (h : a.data = b.data) : a = b := by
  cases a; cases b; exact congrArg String.mk h

/-- A committee-tagged reference never equals a project-tagged one. -/
theorem committeeTag_ne_projectTag (u v : String) :
    "committee:" ++ u ≠ "project:" ++ v := by
  intro hEq
  have hd := congrArg String.data hEq
  rw [stringDataAppend, stringDataAppend,
    show "committee:".data = ['c','o','m','m','i','t','t','e','e',':'] from rfl,
    show "project:".data = ['p','r','o','j','e','c','t',':'] from rfl] at hd
  simp at hd

/-- A tagged reference determines the tagged UID. -/
theorem tagAppend_right_inj (t : String) {u v : String}
    (h : t ++ u = t ++ v) : u = v := by
  have hd := congrArg String.data h
  rw [stringDataAppend, stringDataAppend] at hd
  exact stringDataEq (List.append_cancel_left hd)

/-- The committee access-reference accumulator gains one entry per
committee link whose resolved UID equals `u`. -/
theorem foldl_committeeRefsStep_count (u : String) (hu : u ≠ "") :
    ∀ (cs : List SurveyCommitteeData) (acc : List String),
      (cs.foldl committeeRefsStep acc).count u =
        acc.count u + cs.countP (fun c => c.CommitteeUID == u) := by
  intro cs
  induction cs with
  | nil => intro acc; simp
  | cons c cs ih =>
    intro acc
    have hstep : (committeeRefsStep acc c).count u =
        acc.count u + (if c.CommitteeUID == u then 1 else 0) := by
      by_cases hce : c.CommitteeUID = ""
      · have hne : ¬ ("" = u) := fun h => hu h.symm
        simp [committeeRefsStep, hce, hne]
      · rw [committeeRefsStep, if_pos (by simpa using hce), List.count_append]
        by_cases hcu : c.CommitteeUID = u
        · simp [hcu]
        · have h0 : ([c.CommitteeUID] : List String).count u = 0 := by
            rw [List.count_eq_zero]
            intro hmem
            exact hcu (List.mem_singleton.mp hmem).symm
          simp [h0, hcu]
    rw [List.foldl_cons, ih, List.countP_cons, hstep]
    omega

/-- The de-duplicated project access-reference accumulator never exceeds
one occurrence of `u` beyond what the seed already had. -/
theorem foldl_projectRefsStep_count_le (u : String) :
    ∀ (cs : List SurveyCommitteeData) (acc : List String),
      (cs.foldl projectRefsStep acc).count u ≤ max (acc.count u) 1 := by
  intro cs
  induction cs with
  | nil =>
    intro acc
    exact le_max_left _ _
  | cons c cs ih =>
    intro acc
    rw [List.foldl_cons]
    refine le_trans (ih (projectRefsStep acc c)) (max_le ?_ (le_max_right _ _))
    rw [projectRefsStep]
    by_cases hpe : c.ProjectUID != ""
    · rw [if_pos hpe]
      by_cases hc : acc.contains c.ProjectUID
      · rw [if_pos hc]
        exact le_max_left _ _
      · rw [if_neg hc, List.count_append]
        by_cases hpu : c.ProjectUID = u
        · have hz : acc.count u = 0 := by
            rw [List.count_eq_zero]
            intro hm
            apply hc
            rw [← hpu] at hm
            simpa using hm
          simp [hz, hpu]
        · have h0 : ([c.ProjectUID] : List String).count u = 0 := by
            rw [List.count_eq_zero]
            intro hm
            exact hpu (List.mem_singleton.mp hm).symm
          simp only [h0, Nat.add_zero]
          exact le_max_left _ _
    · rw [if_neg hpe]
      exact le_max_left _ _

/-- `u` ends up among the project access references exactly when some
committee link resolved its project to `u` (or the seed had it). -/
theorem foldl_projectRefsStep_mem (u : String) (hu : u ≠ "") :
    ∀ (cs : List SurveyCommitteeData) (acc : List String),
      (u ∈ cs.foldl projectRefsStep acc ↔ u ∈ acc ∨ ∃ c ∈ cs, c.ProjectUID = u) := by
  intro cs
  induction cs with
  | nil => intro acc; simp
  | cons c cs ih =>
    intro acc
    have hstep : u ∈ projectRefsStep acc c ↔ u ∈ acc ∨ c.ProjectUID = u := by
      rw [projectRefsStep]
      by_cases hpe : c.ProjectUID != ""
      · rw [if_pos hpe]
        by_cases hc : acc.contains c.ProjectUID
        · rw [if_pos hc]
          by_cases hpu : c.ProjectUID = u
          · have hmem : u ∈ acc := by
              rw [← hpu]
              simpa using hc
            simp [hpu, hmem]
          · simp [hpu]
        · rw [if_neg hc]
          simp [List.mem_append, eq_comm]
      · rw [if_neg hpe]
        have hem : c.ProjectUID = "" := by simpa using hpe
        have : ¬ (c.ProjectUID = u) := by
          rw [hem]
          exact fun h => hu h.symm
        simp [this]
    rw [List.foldl_cons, ih, hstep, List.exists_mem_cons_iff]
    tauto

/-- The project half of the parent-reference step never changes the
count of a committee-tagged reference. -/
theorem parentRefs_projPart_count_committee (c : SurveyCommitteeData) (u : String)
    (l : List String) :
    (if c.ProjectUID != "" then
       (if l.contains ("project:" ++ c.ProjectUID) then l
        else l ++ ["project:" ++ c.ProjectUID])
     else l).count ("committee:" ++ u) = l.count ("committee:" ++ u) := by
  by_cases hpe : c.ProjectUID != ""
  · rw [if_pos hpe]
    by_cases hc : l.contains ("project:" ++ c.ProjectUID)
    · rw [if_pos hc]
    · rw [if_neg hc, List.count_append]
      have h0 : (["project:" ++ c.ProjectUID] : List String).count ("committee:" ++ u) = 0 := by
        rw [List.count_eq_zero]
        intro hm
        exact committeeTag_ne_projectTag u c.ProjectUID (List.mem_singleton.mp hm)
      omega
  · rw [if_neg hpe]

/-- The parent-reference list gains one `committee:<u>` entry per
committee link whose resolved committee UID is `u`. -/
theorem foldl_parentRefsStep_count_committee (u : String) (hu : u ≠ "") :
    ∀ (cs : List SurveyCommitteeData) (acc : List String),
      (cs.foldl surveyParentRefsStep acc).count ("committee:" ++ u) =
        acc.count ("committee:" ++ u) + cs.countP (fun c => c.CommitteeUID == u) := by
  intro cs
  induction cs with
  | nil => intro acc; simp
  | cons c cs ih =>
    intro acc
    have hstep : (surveyParentRefsStep acc c).count ("committee:" ++ u) =
        acc.count ("committee:" ++ u) + (if c.CommitteeUID == u then 1 else 0) := by
      rw [surveyParentRefsStep]
      rw [parentRefs_projPart_count_committee c u]
      by_cases hce : c.CommitteeUID = ""
      · have hne : ¬ ("" = u) := fun h => hu h.symm
        rw [hce]
        simp [hne]
      · rw [if_pos (by simpa using hce), List.count_append]
        by_cases hcu : c.CommitteeUID = u
        · simp [hcu]
        · have h0 : (["committee:" ++ c.CommitteeUID] : List String).count
              ("committee:" ++ u) = 0 := by
            rw [List.count_eq_zero]
            intro hm
            exact hcu (tagAppend_right_inj "committee:"
              (List.mem_singleton.mp hm)).symm
          simp [h0, hcu]
    rw [List.foldl_cons, ih, List.countP_cons, hstep]
    omega

/-- The committee half of the parent-reference step never changes the
count of a project-tagged reference. -/
theorem parentRefs_commPart_count_project (c : SurveyCommitteeData) (u : String)
    (acc : List String) :
    (if c.CommitteeUID != "" then acc ++ ["committee:" ++ c.CommitteeUID]
     else acc).count ("project:" ++ u) = acc.count ("project:" ++ u) := by
  by_cases hce : c.CommitteeUID != ""
  · rw [if_pos hce, List.count_append]
    have h0 : (["committee:" ++ c.CommitteeUID] : List String).count
        ("project:" ++ u) = 0 := by
      rw [List.count_eq_zero]
      intro hm
      exact committeeTag_ne_projectTag c.CommitteeUID u (List.mem_singleton.mp hm).symm
    omega
  · rw [if_neg hce]

/-- The committee half of the parent-reference step never introduces a
project-tagged reference. -/
theorem parentRefs_commPart_mem_project (c : SurveyCommitteeData) (u : String)
    (acc : List String) :
    (("project:" ++ u) ∈ (if c.CommitteeUID != "" then
        acc ++ ["committee:" ++ c.CommitteeUID] else acc) ↔
      ("project:" ++ u) ∈ acc) := by
  by_cases hce : c.CommitteeUID != ""
  · rw [if_pos hce]
    simp only [List.mem_append, List.mem_singleton]
    constructor
    · rintro (h | h)
      · exact h
      · exact absurd h.symm (committeeTag_ne_projectTag c.CommitteeUID u)
    · exact Or.inl
  · rw [if_neg hce]

/-- The parent-reference list holds at most one `project:<u>` entry
beyond what the seed already had. -/
theorem foldl_parentRefsStep_count_project_le (u : String) :
    ∀ (cs : List SurveyCommitteeData) (acc : List String),
      (cs.foldl surveyParentRefsStep acc).count ("project:" ++ u) ≤
        max (acc.count ("project:" ++ u)) 1 := by
  intro cs
  induction cs with
  | nil => intro acc; exact le_max_left _ _
  | cons c cs ih =>
    intro acc
    rw [List.foldl_cons]
    refine le_trans (ih _) (max_le ?_ (le_max_right _ _))
    rw [surveyParentRefsStep]
    have hpr1 := parentRefs_commPart_count_project c u acc
    by_cases hpe : c.ProjectUID != ""
    · rw [if_pos hpe]
      by_cases hc : (if c.CommitteeUID != "" then
          acc ++ ["committee:" ++ c.CommitteeUID] else acc).contains
            ("project:" ++ c.ProjectUID)
      · rw [if_pos hc, hpr1]
        exact le_max_left _ _
      · rw [if_neg hc, List.count_append]
        by_cases hpu : c.ProjectUID = u
        · rw [hpu] at hc ⊢
          have hz : (if c.CommitteeUID != "" then
              acc ++ ["committee:" ++ c.CommitteeUID] else acc).count
                ("project:" ++ u) = 0 := by
            rw [List.count_eq_zero]
            intro hm
            exact hc (by simpa using hm)
          rw [hz, List.count_singleton]
          simpa using le_max_right (acc.count ("project:" ++ u)) 1
        · have h0 : (["project:" ++ c.ProjectUID] : List String).count
              ("project:" ++ u) = 0 := by
            rw [List.count_eq_zero]
            intro hm
            exact hpu (tagAppend_right_inj "project:"
              (List.mem_singleton.mp hm)).symm
          rw [h0, hpr1]
          simpa using le_max_left (acc.count ("project:" ++ u)) 1
    · rw [if_neg hpe, hpr1]
      exact le_max_left _ _

/-- A `project:<u>` entry appears among the parent references exactly
when some committee link resolved its project to `u` (or the seed had
it). -/
theorem foldl_parentRefsStep_mem_project (u : String) (hu : u ≠ "") :
    ∀ (cs : List SurveyCommitteeData) (acc : List String),
      (("project:" ++ u) ∈ cs.foldl surveyParentRefsStep acc ↔
        ("project:" ++ u) ∈ acc ∨ ∃ c ∈ cs, c.ProjectUID = u) := by
  intro cs
  induction cs with
  | nil => intro acc; simp
  | cons c cs ih =>
    intro acc
    have hstep : (("project:" ++ u) ∈ surveyParentRefsStep acc c ↔
        ("project:" ++ u) ∈ acc ∨ c.ProjectUID = u) := by
      rw [surveyParentRefsStep]
      have hmem1 := parentRefs_commPart_mem_project c u acc
      by_cases hpe : c.ProjectUID != ""
      · rw [if_pos hpe]
        by_cases hc : (if c.CommitteeUID != "" then
            acc ++ ["committee:" ++ c.CommitteeUID] else acc).contains
              ("project:" ++ c.ProjectUID)
        · rw [if_pos hc]
          by_cases hpu : c.ProjectUID = u
          · have hmem : ("project:" ++ u) ∈ acc := by
              rw [← hmem1]
              rw [hpu] at hc
              simpa using hc
            exact ⟨fun _ => Or.inr hpu, fun _ => hmem1.mpr hmem⟩
          · rw [hmem1]
            simp [hpu]
        · rw [if_neg hc]
          simp only [List.mem_append, List.mem_singleton, hmem1]
          constructor
          · rintro (h | h)
            · exact Or.inl h
            · exact Or.inr (tagAppend_right_inj "project:" h).symm
          · rintro (h | h)
            · exact Or.inl h
            · exact Or.inr (by rw [h])
      · rw [if_neg hpe]
        have hem : c.ProjectUID = "" := by simpa using hpe
        have hne : ¬ (c.ProjectUID = u) := by
          rw [hem]
          exact fun h => hu h.symm
        rw [hmem1]
        simp [hne]
    rw [List.foldl_cons, ih, hstep, List.exists_mem_cons_iff]
    tauto

/-- The committee component of the access-reference fold only depends on
the committee accumulator. -/
theorem foldl_accessRefs_fst :
    ∀ (cs : List SurveyCommitteeData) (acc : List String × List String),
      (cs.foldl surveyAccessRefsStep acc).1 = cs.foldl committeeRefsStep acc.1 := by
  intro cs
  induction cs with
  | nil => intro acc; rfl
  | cons c cs ih =>
    intro acc
    rw [List.foldl_cons, List.foldl_cons, ih]
    rfl

/-- The project component of the access-reference fold only depends on
the project accumulator. -/
theorem foldl_accessRefs_snd :
    ∀ (cs : List SurveyCommitteeData) (acc : List String × List String),
      (cs.foldl surveyAccessRefsStep acc).2 = cs.foldl projectRefsStep acc.2 := by
  intro cs
  induction cs with
  | nil => intro acc; rfl
  | cons c cs ih =>
    intro acc
    rw [List.foldl_cons, List.foldl_cons, ih]
    rfl

/-- Counterexample to claim C6 as stated: a survey whose committee list
carries the same resolved committee UID `X` twice produces `committee:X`
twice in the indexing parent references and `X` twice in the
access-control references map, so committee entries are not
de-duplicated the way project entries are. -/
theorem c6_committee_refs_not_deduplicated :
    (buildSurveyParentRefs surveyDupW.Committees).count "committee:X" = 2 ∧
    (buildSurveyAccessRefs surveyDupW.Committees).1.count "X" = 2 ∧
    sendSurveyAccessMessage surveyDupW =
      [{ subject := UpdateAccessSubject
         payload := .fga
           { ObjectType := "survey"
             Operation := "update_access"
             Data :=
               { uid := "s3"
                 public := some false
                 relations := none
                 references := some [("committee", ["X", "X"])] } } }] := by
  refine ⟨by decide, by decide, by decide⟩

/-- Claim C6 (amended): on a survey create/update publish the project
references are de-duplicated (each resolved project UID appears at most
once, and appears iff some link resolved to it) in both the indexing
parent-reference list and the access-control references, while the
committee references get one entry per committee link with that resolved
UID, so duplicated committee UIDs are repeated, not de-duplicated. -/
theorem c6_survey_refs_dedup_amended (committees : List SurveyCommitteeData)
    (u : String) (hu : u ≠ "") :
    ((buildSurveyParentRefs committees).count ("committee:" ++ u) =
      committees.countP (fun c => c.CommitteeUID == u)) ∧
    ((buildSurveyParentRefs committees).count ("project:" ++ u) ≤ 1) ∧
    (("project:" ++ u) ∈ buildSurveyParentRefs committees ↔
      ∃ c ∈ committees, c.ProjectUID = u) ∧
    ((buildSurveyAccessRefs committees).1.count u =
      committees.countP (fun c => c.CommitteeUID == u)) ∧
    ((buildSurveyAccessRefs committees).2.count u ≤ 1) ∧
    (u ∈ (buildSurveyAccessRefs committees).2 ↔
      ∃ c ∈ committees, c.ProjectUID = u) := by
  refine ⟨?_, ?_, ?_, ?_, ?_, ?_⟩
  · rw [buildSurveyParentRefs, foldl_parentRefsStep_count_committee u hu]
    simp
  · have h := foldl_parentRefsStep_count_project_le u committees []
    rw [buildSurveyParentRefs]
    simpa using h
  · rw [buildSurveyParentRefs, foldl_parentRefsStep_mem_project u hu]
    simp
  · rw [buildSurveyAccessRefs, foldl_accessRefs_fst,
      foldl_committeeRefsStep_count u hu]
    simp
  · rw [buildSurveyAccessRefs, foldl_accessRefs_snd]
    have h := foldl_projectRefsStep_count_le u committees []
    simpa using h
  · rw [buildSurveyAccessRefs, foldl_accessRefs_snd, foldl_projectRefsStep_mem u hu]
    simp

/-- Concrete instantiation of the amended C6 theorem: two links with the
same resolved project UID `P` yield at most one `project:P` parent
reference, and the reference is present. -/
theorem c6_survey_refs_dedup_amended_witness :
    (buildSurveyParentRefs [{ ProjectUID := "P" }, { ProjectUID := "P" }]).count
      ("project:" ++ "P") ≤ 1 ∧
    ("project:" ++ "P") ∈
      buildSurveyParentRefs [{ ProjectUID := "P" }, { ProjectUID := "P" }] := by
  have h := c6_survey_refs_dedup_amended
    [{ ProjectUID := "P" }, { ProjectUID := "P" }] "P" (by decide)
  exact ⟨h.2.1, (h.2.2.1).mpr ⟨{ ProjectUID := "P" }, by decide, rfl⟩⟩

/-- Concrete instantiation of the C7 theorem: a survey whose two
committee links carry no identifiers publishes no access-control
message, and a response with no username, project UID or survey UID
skips its access-control message as well. -/
theorem c7_skip_access_when_no_refs_witness :
    sendSurveyAccessMessage sdOrphanW = [] ∧
    sendSurveyResponseAccessMessage { UID := "r2", ID := "r2" } = [] := by
  have h := c7_skip_access_when_no_refs {} .created sdOrphanW (by decide) (by decide)
  exact ⟨h.1, (h.2.2 { UID := "r2", ID := "r2" }).mpr ⟨rfl, rfl, rfl⟩⟩
